import Mathlib

/-!
Verification of the AI suggestion gateway of the diabetics_retinopathy
repository (`src/utils/ai_models.py`).

The Python source is shallowly embedded below.  Strings are Lean `String`s
(in this toolchain a `String` is a wrapper around `List Char`, matching
Python's sequence-of-code-points view of `str`).  Python dictionaries whose
keys are strings are embedded as insertion-ordered association lists
(`PyDict`), JSON values as the inductive `PyVal`, and Python functions that
may raise are embedded as `Except Unit`- or `Option`-valued functions where
the error case marks a raised exception.  External library calls
(`json.loads`, the `re` module, `requests`, `BeautifulSoup`) are modelled
by executable Lean definitions that follow the documented semantics of the
library on the inputs the source can reach; each such model carries a
comment describing the scope of the model.
-/

/-- Whitespace as matched by Python's regex class `\s` on `str` patterns:
the ASCII whitespace characters (including vertical tab, form feed and the
file/group/record/unit separators) together with the Unicode space
characters. -/
def reIsSpace (c : Char) : Bool :=
  c = ' ' || c = '\t' || c = '\n' || c = '\r' ||
  c = '\x0b' || c = '\x0c' ||
  c = '\x1c' || c = '\x1d' || c = '\x1e' || c = '\x1f' || c = '\x85' ||
  c = '\xa0' || c = ' ' ||
  (0x2000 ≤ c.toNat && c.toNat ≤ 0x200a) ||
  c = ' ' || c = ' ' || c = ' ' || c = ' ' || c = '　'

/-- Whitespace accepted by Python's `json` module between tokens:
exactly space, tab, newline and carriage return. -/
def jsonIsSpace (c : Char) : Bool :=
  c = ' ' || c = '\t' || c = '\n' || c = '\r'

/-- Lower-casing of a string, one character at a time.  Models Python's
`str.lower()`; the two agree on ASCII text, which is the only text the
embedded call sites compare against (all registry names, regex literals and
sniffed substrings are ASCII). -/
def lowerStr (s : String) : String :=
  String.mk (s.data.map Char.toLower)

/-- Membership test of `pat` as a contiguous substring of `s`; models the
Python expression `pat in s` on strings. -/
def containsSubstr (s pat : String) : Bool :=
  let rec go : List Char → Bool
    | [] => pat.data.isPrefixOf []
    | c :: rest => pat.data.isPrefixOf (c :: rest) || go rest
  go s.data

/-- Removal of leading and trailing whitespace; models Python's
`str.strip()` with no argument. -/
def pyStripStr (s : String) : String :=
  String.mk (((s.data.dropWhile (fun c => reIsSpace c)).reverse.dropWhile
    (fun c => reIsSpace c)).reverse)

/-- Truncation to the first `n` characters; models the Python slice
`s[:n]` for `n ≥ 0`. -/
def takeChars (n : Nat) (s : String) : String :=
  String.mk (s.data.take n)

/-- Python values as they occur in this gateway: the results of
`json.loads`, the entries of request payloads, and configuration values.
Python's `int`/`float` distinction is kept (`intv` vs `floatv`); floats are
modelled as exact rationals. -/
inductive PyVal where
  | null
  | boolv (b : Bool)
  | intv (n : Int)
  | floatv (q : Rat)
  | str (s : String)
  | arr (xs : List PyVal)
  | obj (kvs : List (String × PyVal))

/-- A Python dictionary with string keys, embedded as an insertion-ordered
association list: the key order of the list is the insertion order of the
dictionary and no key occurs twice once built through `dSet`. -/
abbrev PyDict := List (String × PyVal)

/-- Membership of a key; models `k in d` for a Python dict `d`. -/
def dContains (d : PyDict) (k : String) : Bool :=
  d.any (fun p => p.1 = k)

/-- Lookup of a key; `none` models a `KeyError` / failed lookup. -/
def dGet? (d : PyDict) (k : String) : Option PyVal :=
  match d.find? (fun p => p.1 = k) with
  | some p => some p.2
  | none => none

/-- Lookup with a default; models `d.get(k, v)`. -/
def dGetD (d : PyDict) (k : String) (v : PyVal) : PyVal :=
  (dGet? d k).getD v

/-- Assignment `d[k] = v`: the value of an existing key is replaced in
place, a new key is appended at the end (Python insertion order). -/
def dSet (d : PyDict) (k : String) (v : PyVal) : PyDict :=
  match d with
  | [] => [(k, v)]
  | (k', v') :: rest =>
    if k' = k then (k', v) :: rest else (k', v') :: dSet rest k v

/-- Models `d.setdefault(k, v)`: inserts `k ↦ v` only when `k` is absent. -/
def dSetdefault (d : PyDict) (k : String) (v : PyVal) : PyDict :=
  if dContains d k then d else d ++ [(k, v)]

/-- Builds the dictionary that Python's JSON decoder constructs from the
raw key/value pairs of an object literal: pairs are inserted left to
right, so a duplicated key keeps its first position and its last value. -/
def dictOfPairs (kvs : List (String × PyVal)) : PyDict :=
  kvs.foldl (fun d p => dSet d p.1 p.2) []

/-- Numeric value of one hexadecimal digit, for the `\uXXXX` escapes of
JSON strings; digits, lower-case and upper-case letters are read off the
code point. -/
def hexDigit? (c : Char) : Option Nat :=
  let n := c.toNat
  if 48 ≤ n && n ≤ 57 then some (n - 48)
  else if 97 ≤ n && n ≤ 102 then some (n - 87)
  else if 65 ≤ n && n ≤ 70 then some (n - 55)
  else none

/-- The eight single-character escapes of the JSON string grammar, as
pairs of the character written after the backslash and the character it
denotes. -/
def jsonEscapePairs : List (Char × Char) :=
  [('"', '"'), ('\\', '\\'), ('/', '/'), ('b', '\x08'), ('f', '\x0c'),
   ('n', '\n'), ('r', '\r'), ('t', '\t')]

/-- Decoder for the body of a JSON string literal (the opening quote already
consumed), following Python's strict `json` decoder: raw control characters
below `U+0020` are rejected, the eight single-character escapes and `\uXXXX`
are recognised, anything else after a backslash is an error.  Surrogate
escapes are not recombined into astral characters (no claim exercises
them).  Returns the decoded characters and the input remaining after the
closing quote. -/
def jStringAux : List Char → Option (List Char × List Char)
  | [] => none
  | '"' :: rest => some ([], rest)
  | '\\' :: 'u' :: h1 :: h2 :: h3 :: h4 :: r =>
    match hexDigit? h1, hexDigit? h2, hexDigit? h3, hexDigit? h4 with
    | some a, some b, some c, some d =>
      (jStringAux r).map (fun p =>
        (Char.ofNat (4096 * a + 256 * b + 16 * c + d) :: p.1, p.2))
    | _, _, _, _ => none
  | '\\' :: e :: r =>
    match jsonEscapePairs.find? (fun pr => pr.1 = e) with
    | some pr => (jStringAux r).map (fun p => (pr.2 :: p.1, p.2))
    | none => none
  | c :: rest =>
    if c.toNat < 32 then none
    else (jStringAux rest).map (fun p => (c :: p.1, p.2))

/-- Value of a list of decimal digit characters. -/
def digitsToNat (ds : List Char) : Nat :=
  ds.foldl (fun a c => 10 * a + (c.toNat - '0'.toNat)) 0

/-- Lexer for a JSON number at the head of the input, per the RFC 8259
grammar enforced by Python's `json` module: optional minus, an integer
part without leading zeros, an optional fraction and an optional exponent,
each with at least one digit.  A number without fraction and exponent
decodes to a Python `int`, otherwise to a `float` (modelled as the exact
rational). -/
def jNumber? (cs : List Char) : Option (PyVal × List Char) :=
  let neg : Bool := cs.head? = some '-'
  let cs1 := if neg then cs.tail else cs
  let ipart? : Option (Nat × List Char) := match cs1 with
    | '0' :: r => some (0, r)
    | c :: r =>
      if '1' ≤ c && c ≤ '9' then
        let ds := r.takeWhile (fun d => d.isDigit)
        some (digitsToNat (c :: ds), r.drop ds.length)
      else none
    | [] => none
  match ipart? with
  | none => none
  | some (ip, r1) =>
    let fpart? : Option (Option (Nat × Nat) × List Char) := match r1 with
      | '.' :: r2 =>
        let ds := r2.takeWhile (fun d => d.isDigit)
        if ds = [] then none
        else some (some (digitsToNat ds, ds.length), r2.drop ds.length)
      | _ => some (none, r1)
    match fpart? with
    | none => none
    | some (fp, r2) =>
      let epart? : Option (Option Int × List Char) := match r2 with
        | 'e' :: r3 | 'E' :: r3 =>
          let (eneg, r4) := match r3 with
            | '-' :: r' => (true, r')
            | '+' :: r' => (false, r')
            | _ => (false, r3)
          let ds := r4.takeWhile (fun d => d.isDigit)
          if ds = [] then none
          else
            let e : Int := digitsToNat ds
            some (some (if eneg then -e else e), r4.drop ds.length)
        | _ => some (none, r2)
      match epart? with
      | none => none
      | some (ep, r3) =>
        match fp, ep with
        | none, none =>
          some (.intv (if neg then -(ip : Int) else (ip : Int)), r3)
        | _, _ =>
          let base : Rat := (ip : Rat) +
            (match fp with
             | some (fn, fl) => (fn : Rat) / ((10 : Rat) ^ fl)
             | none => 0)
          let scaled : Rat := base * (10 : Rat) ^ (ep.getD 0)
          some (.floatv (if neg then -scaled else scaled), r3)

mutual

/-- Recursive-descent JSON value parser, fuel-indexed; models the grammar
accepted by Python's `json.loads` (minus the non-standard `NaN`/`Infinity`
literals, which no reachable provider text in the claims uses).  Returns
the value and the unconsumed input. -/
def jparseVal : Nat → List Char → Option (PyVal × List Char)
  | 0, _ => none
  | n + 1, cs0 =>
    let cs := cs0.dropWhile (fun c => jsonIsSpace c)
    match cs with
    | '{' :: r =>
      let r1 := r.dropWhile (fun c => jsonIsSpace c)
      match r1 with
      | '}' :: r2 => some (.obj [], r2)
      | _ => jparseMembers n r1 []
    | '[' :: r =>
      let r1 := r.dropWhile (fun c => jsonIsSpace c)
      match r1 with
      | ']' :: r2 => some (.arr [], r2)
      | _ => jparseElems n r1 []
    | '"' :: r => (jStringAux r).map (fun p => (.str (String.mk p.1), p.2))
    | 't' :: 'r' :: 'u' :: 'e' :: r => some (.boolv true, r)
    | 'f' :: 'a' :: 'l' :: 's' :: 'e' :: r => some (.boolv false, r)
    | 'n' :: 'u' :: 'l' :: 'l' :: r => some (.null, r)
    | _ => jNumber? cs

/-- Parser for the members of a JSON object after its opening brace (and
any following whitespace), accumulating the raw key/value pairs. -/
def jparseMembers : Nat → List Char → List (String × PyVal) →
    Option (PyVal × List Char)
  | 0, _, _ => none
  | n + 1, cs, acc =>
    match cs with
    | '"' :: r =>
      match jStringAux r with
      | none => none
      | some (key, r1) =>
        match r1.dropWhile (fun c => jsonIsSpace c) with
        | ':' :: r2 =>
          match jparseVal n r2 with
          | none => none
          | some (v, r3) =>
            match r3.dropWhile (fun c => jsonIsSpace c) with
            | ',' :: r4 =>
              jparseMembers n (r4.dropWhile (fun c => jsonIsSpace c))
                (acc ++ [(String.mk key, v)])
            | '}' :: r4 => some (.obj (acc ++ [(String.mk key, v)]), r4)
            | _ => none
        | _ => none
    | _ => none

/-- Parser for the elements of a JSON array after its opening bracket (and
any following whitespace). -/
def jparseElems : Nat → List Char → List PyVal → Option (PyVal × List Char)
  | 0, _, _ => none
  | n + 1, cs, acc =>
    match jparseVal n cs with
    | none => none
    | some (v, r) =>
      match r.dropWhile (fun c => jsonIsSpace c) with
      | ',' :: r1 => jparseElems n r1 (acc ++ [v])
      | ']' :: r1 => some (.arr (acc ++ [v]), r1)
      | _ => none

end

/-- Models Python's `json.loads`: decodes one JSON document and rejects the
input when anything other than whitespace follows it.  The fuel bound
exceeds the deepest possible recursion for the given input, so it is never
exhausted on inputs the parser accepts or rejects for grammatical
reasons. -/
def jsonLoads (s : String) : Option PyVal :=
  match jparseVal (2 * s.length + 4) s.data with
  | none => none
  | some (v, rest) =>
    if rest.dropWhile (fun c => jsonIsSpace c) = [] then some v else none

/-- Strips a literal prefix from the input, or fails. -/
def stripLit : List Char → List Char → Option (List Char)
  | [], cs => some cs
  | _ :: _, [] => none
  | p :: ps, c :: cs => if c = p then stripLit ps cs else none

/-- Scanner for `re.sub(lit + "\s*", "", s)` where `lit` is a literal with
no regex metacharacters: the input is copied left to right and every
non-overlapping occurrence of the literal together with the greedy run of
whitespace after it is deleted.  With `ci` the match is case-insensitive
(`lit` must then be given lower-case).  Fuel-indexed; each step consumes at
least one character, so fuel `length + 1` never runs out. -/
def subLitWsAux (lit : List Char) (ci : Bool) : Nat → List Char → List Char
  | 0, cs => cs
  | n + 1, cs =>
    match cs with
    | [] => []
    | c :: rest =>
      let subject := if ci then (c :: rest).map Char.toLower else c :: rest
      if lit.isPrefixOf subject then
        subLitWsAux lit ci n
          (((c :: rest).drop lit.length).dropWhile (fun a => reIsSpace a))
      else c :: subLitWsAux lit ci n rest

/-- Models `re.sub(lit + "\s*", "", s, flags)` for a metacharacter-free
literal `lit`. -/
def pySubLitWs (lit : String) (ci : Bool) (s : String) : String :=
  String.mk (subLitWsAux (if ci then lit.data.map Char.toLower else lit.data)
    ci (s.data.length + 1) s.data)

/-- Index of the first occurrence of a character; models `str.find`
(with `none` for Python's `-1`). -/
def strFindChar (s : String) (c : Char) : Option Nat :=
  s.data.findIdx? (fun a => a = c)

/-- Index of the last occurrence of a character; models `str.rfind`
(with `none` for Python's `-1`). -/
def strRfindChar (s : String) (c : Char) : Option Nat :=
  match s.data.reverse.findIdx? (fun a => a = c) with
  | some i => some (s.data.length - 1 - i)
  | none => none

/-- Steps 1 and 2 of `parse_ai_response`: strip markdown code fences
(`re.sub` of a case-insensitive ```` ```json\s* ```` and then of
```` ```\s* ````), then slice from the first `\x7b` to the last `\x7d`
when both exist (`content[start_idx : end_idx + 1]`, which is empty when
the last brace precedes the first, exactly as in Python). -/
def cleanContent (content : String) : String :=
  let c1 := pySubLitWs "```json" true content
  let c2 := pySubLitWs "```" false c1
  match strFindChar c2 '{', strRfindChar c2 '}' with
  | some a, some b => String.mk ((c2.data.drop a).take (b + 1 - a))
  | _, _ => c2

/-- Attempt, at the start of the input, of the pattern
`"<key>"\s*:\s*"([^"]*)` used by `_extract_partial_json`: the quoted key
literal, optional whitespace, a colon, optional whitespace, an opening
quote, and a capture of the maximal run of non-quote characters (no
closing quote required).  Returns the capture. -/
def keyQuotedAt (keyLit : List Char) (cs : List Char) : Option String :=
  match stripLit keyLit cs with
  | none => none
  | some r1 =>
    match r1.dropWhile (fun a => reIsSpace a) with
    | ':' :: r2 =>
      match r2.dropWhile (fun a => reIsSpace a) with
      | '"' :: r3 => some (String.mk (r3.takeWhile (fun a => a ≠ '"')))
      | _ => none
    | _ => none

/-- Scanner realising `re.search` for the `keyQuotedAt` pattern: the
attempt is made at every start position from the left, and the first
success wins (leftmost-match semantics; the pattern begins with a literal,
so only occurrences of the literal can succeed). -/
def searchKeyQuotedAux (keyLit : List Char) : List Char → Option String
  | [] => none
  | c :: rest =>
    match keyQuotedAt keyLit (c :: rest) with
    | some g => some g
    | none => searchKeyQuotedAux keyLit rest

/-- Models `re.search('"' + key + '"\s*:\s*"([^"]*)', content)`, returning
group 1. -/
def searchKeyQuoted (key : String) (content : String) : Option String :=
  searchKeyQuotedAux ('"' :: key.data ++ ['"']) content.data

/-- Positions of the input at which the regex anchor `$` matches when
`re.MULTILINE` is off: the end of the input and, when the input ends with a
newline, the position just before it. -/
def endAnchors (cs : List Char) : List Nat :=
  (if cs.getLast? = some '\n' then [cs.length - 1] else []) ++ [cs.length]

/-- Attempt, at the start of the input, of the pattern
`"treatment_plan"\s*:\s*$(.*?)$` compiled with `re.DOTALL` (as in
`_extract_partial_json`): the quoted key literal, optional whitespace, a
colon, then greedy whitespace up to a `$` anchor position `p` (the engine
takes the largest anchor position reachable through whitespace), then a
lazy `(.*?)` capture up to the smallest following `$` anchor position `q`.
Returns the capture, the characters strictly between `p` and `q`. -/
def treatmentGroupAt (cs : List Char) : Option String :=
  match stripLit ("\"treatment_plan\"".data) cs with
  | none => none
  | some r1 =>
    match r1.dropWhile (fun a => reIsSpace a) with
    | c :: r2 =>
      if c = ':' then
        let w := (r2.takeWhile (fun a => reIsSpace a)).length
        match ((endAnchors r2).filter (fun a => a ≤ w)).getLast? with
        | none => none
        | some p =>
          match ((endAnchors r2).filter (fun a => p ≤ a)).head? with
          | none => none
          | some q => some (String.mk ((r2.drop p).take (q - p)))
      else none
    | [] => none

/-- Scanner realising `re.search` for the `treatmentGroupAt` pattern. -/
def treatmentGroupSearch : List Char → Option String
  | [] => none
  | c :: rest =>
    match treatmentGroupAt (c :: rest) with
    | some g => some g
    | none => treatmentGroupSearch rest

/-- Models `re.findall('"([^"]*?)"', s)`: every non-overlapping quoted run
from the left, each capture being the characters between a quote and the
next quote; a final unclosed quote yields no further match.  Fuel-indexed;
each step consumes at least one character. -/
def findallQuotedAux : Nat → List Char → List String
  | 0, _ => []
  | n + 1, cs =>
    match cs with
    | [] => []
    | '"' :: rest =>
      let grp := rest.takeWhile (fun a => a ≠ '"')
      match rest.drop grp.length with
      | '"' :: r2 => String.mk grp :: findallQuotedAux n r2
      | _ => []
    | _ :: rest => findallQuotedAux n rest

/-- Entry point of `findallQuotedAux` with sufficient fuel. -/
def findallQuoted (s : String) : List String :=
  findallQuotedAux (s.data.length + 1) s.data

/-- Embedding of `_extract_partial_json`, lines 857-886 (the body of its
`try` block, which cannot raise on a `str` argument because `re.search`,
`re.findall` and dictionary assignment are total there): the two summary
fields become the first quoted string after their key or a fixed
placeholder, and `treatment_plan` becomes the quoted strings found inside
the `$(.*?)$` capture — with the per-branch placeholder when the pattern
does not match or captures no quoted string. -/
def extract_partial_json_body (content : String) : PyDict :=
  let summary : String :=
    match searchKeyQuoted "summary_for_doctor" content with
    | some g => g
    | none => "Partial summary extracted from truncated response"
  let patient : String :=
    match searchKeyQuoted "patient_friendly_summary" content with
    | some g => g
    | none => "Patient-friendly summary not available in truncated response"
  let treatment : PyVal :=
    match treatmentGroupSearch content.data with
    | some g =>
      let items := findallQuoted g
      .arr (if items = [] then
        [.str "Treatment plan not fully available in truncated response"]
      else items.map .str)
    | none => .arr [.str "Treatment plan not available in truncated response"]
  [("summary_for_doctor", .str summary),
   ("patient_friendly_summary", .str patient),
   ("treatment_plan", treatment)]

/-- Return value of the `except` branch of `_extract_partial_json`
(lines 888-898): the fully placeholder-filled result. -/
def extract_catastrophic_result : PyDict :=
  [("summary_for_doctor", .str "Could not parse truncated response"),
   ("patient_friendly_summary", .str "Response was truncated"),
   ("treatment_plan", .arr [.str "Response was incomplete"]),
   ("medication_suggestions", .arr []),
   ("lifestyle_recommendations", .arr []),
   ("followup_interval", .str "Unable to determine from truncated response"),
   ("red_flag_warnings", .arr []),
   ("disclaimer", .str "This response was truncated and may be incomplete.")]

/-- Embedding of `_extract_partial_json` with its `try`/`except`: the body
cannot raise on a `str` argument, so the embedded function is total and
the catastrophic branch (`extract_catastrophic_result`) is unreachable. -/
def extract_partial_json (content : String) : Except Unit PyDict :=
  .ok (extract_partial_json_body content)

/-- The three required fields of a suggestion result, in the order the
source iterates them. -/
def requiredFields : List String :=
  ["summary_for_doctor", "patient_friendly_summary", "treatment_plan"]

/-- Placeholder substituted on the strict path for an absent required
field (`f"Information for \x7bfield\x7d was not generated."`). -/
def requiredPlaceholder (field : String) : String :=
  "Information for " ++ field ++ " was not generated."

/-- One iteration of the required-field loop of `parse_ai_response`
(lines 841-843): an absent field is assigned its field-naming
placeholder. -/
def requiredDefaultStep (d : PyDict) (f : String) : PyDict :=
  if dContains d f then d else dSet d f (.str (requiredPlaceholder f))

/-- Step 4 of `parse_ai_response` (lines 839-849): each absent required
field is assigned its field-naming placeholder, then the five optional
fields receive their safe defaults through `setdefault`. -/
def apply_response_defaults (d : PyDict) : PyDict :=
  let d := requiredFields.foldl requiredDefaultStep d
  let d := dSetdefault d "medication_suggestions" (.arr [])
  let d := dSetdefault d "lifestyle_recommendations" (.arr [])
  let d := dSetdefault d "followup_interval" (.str "Refer to ophthalmologist")
  let d := dSetdefault d "red_flag_warnings" (.arr [])
  dSetdefault d "disclaimer" (.str "AI-generated. Consult a professional.")

/-- Body of the `try` block of `parse_ai_response` (lines 821-851).
`Except.error ()` marks a raised exception: the explicit
`ValueError` on empty content, a `json.loads` failure, or the
`TypeError`/`AttributeError` that the membership test, item assignment or
`setdefault` raises when the decoded document is not a dict (every
non-dict decode reaches one of those three operations and raises). -/
def parse_ai_response_body (content : String) : Except Unit PyDict :=
  if content = "" then .error ()
  else
    match jsonLoads (cleanContent content) with
    | some (.obj kvs) => .ok (apply_response_defaults (dictOfPairs kvs))
    | some _ => .error ()
    | none => .error ()

/-- Embedding of `parse_ai_response` (lines 819-856): the `try` body, with
every raised exception caught and routed to `_extract_partial_json` on the
original content.  An exception raised inside that fallback would escape —
the result stays in `Except` to keep that path visible. -/
def parse_ai_response (content : String) : Except Unit PyDict :=
  match parse_ai_response_body content with
  | .ok d => .ok d
  | .error _ => extract_partial_json content

/-- Embedding of `build_system_prompt` (lines 722-753): the constant
system instruction, transcribed verbatim. -/
def build_system_prompt : String :=
  "You are a medical AI assistant specializing in diabetic retinopathy. \n" ++
  "Provide structured treatment suggestions and clinical guidance based on retinal analysis results.\n" ++
  "\n" ++
  "Always respond in this exact JSON format and ensure the entire response is complete (do not truncate):\n" ++
  "\x7b\n" ++
  "    \"summary_for_doctor\": \"Clinical summary for healthcare provider that includes patient name, age, gender and references clinical notes\",\n" ++
  "    \"patient_friendly_summary\": \"Patient-friendly explanation that includes patient name\",\n" ++
  "    \"treatment_plan\": [\"Step 1\", \"Step 2\", ...],\n" ++
  "    \"medication_suggestions\": [\"Medication 1\", \"Medication 2\", ...],\n" ++
  "    \"lifestyle_recommendations\": [\"Recommendation 1\", \"Recommendation 2\", ...],\n" ++
  "    \"followup_interval\": \"Follow-up timing recommendation\",\n" ++
  "    \"red_flag_warnings\": [\"Warning 1\", \"Warning 2\", ...],\n" ++
  "    \"disclaimer\": \"Appropriate medical disclaimer\"\n" ++
  "\x7d\n" ++
  "\n" ++
  "CRITICAL INSTRUCTIONS:\n" ++
  "1. In the \"summary_for_doctor\", ALWAYS include the patient\x27s name, age, and gender at the beginning\n" ++
  "2. Reference the clinical notes and observations provided in the summary\n" ++
  "3. In the \"patient_friendly_summary\", ALWAYS include the patient\x27s name to personalize the response\n" ++
  "4. Make all recommendations specific to the patient\x27s demographic and clinical context\n" ++
  "5. Ensure treatment plans are personalized based on the patient\x27s age, gender, and clinical presentation\n" ++
  "6. Respond with the COMPLETE JSON object - do not truncate or cut off the response\n" ++
  "7. Double-check that all JSON brackets and quotation marks are properly closed\n" ++
  "8. Ensure ALL arrays (treatment_plan, medication_suggestions, lifestyle_recommendations, red_flag_warnings) are complete and not cut off mid-list\n" ++
  "9. Verify that all text fields contain complete sentences and are not truncated\n" ++
  "10. UNDER NO CIRCUMSTANCES should you truncate the response due to token limits - use all available space to provide a complete response\n" ++
  "11. If you feel you are approaching token limits, prioritize completing the arrays over shortening individual items\n" ++
  "12. Always return a valid, complete JSON object regardless of length\n" ++
  "\n" ++
  "Be concise, clinical, and evidence-based in your recommendations. Focus on diabetic retinopathy management and treatment."

/-- Python truthiness of the embedded values, as used by `x or y`. -/
def pyTruthy : PyVal → Bool
  | .null => false
  | .boolv b => b
  | .intv n => n ≠ 0
  | .floatv q => q ≠ 0
  | .str s => s ≠ ""
  | .arr xs => !xs.isEmpty
  | .obj kvs => !kvs.isEmpty

/-- Exact decimal rendering of a rational whose denominator divides a
power of ten (every value arising from a Python float does, and the model
stores the ideal decimal), using the smallest number of fraction digits,
with at least one fraction digit as Python's `str(float)` prints.
Computed on the numerator and denominator directly with integer
arithmetic. -/
def ratDecimalStr (q : Rat) : String :=
  match (List.range 65).find? (fun k => 10 ^ k % q.den = 0) with
  | none => "float"
  | some k =>
    let sign := if q.num < 0 then "-" else ""
    let a := q.num.natAbs * (10 ^ k / q.den)
    if k = 0 then sign ++ toString a ++ ".0"
    else
      let fs := toString (a % 10 ^ k)
      sign ++ toString (a / 10 ^ k) ++ "." ++
        (String.mk (List.replicate (k - fs.length) '0') ++ fs)

/-- Conversion of a value interpolated into an f-string; models Python's
`str()`.  Container rendering is abbreviated (no claim interpolates a list
or dict), everything the claims reach — strings, ints, floats, bools,
`None` — is rendered as Python renders it. -/
def pyStr : PyVal → String
  | .null => "None"
  | .boolv b => if b then "True" else "False"
  | .intv n => toString n
  | .floatv q => ratDecimalStr q
  | .str s => s
  | .arr _ => "[...]"
  | .obj _ => "\x7b...\x7d"

/-- Rounding of `10 * q` to the nearest integer with ties to the even
integer, the rule Python's fixed-point float formatting applies (on the
exact value in this model; the binary double's representation error is
not modelled).  Computed on the exact fraction `10 * q.num / q.den` with
integer arithmetic: `f` is its floor and `r` its nonnegative remainder,
compared against one half by cross-multiplication. -/
def roundTenthsHalfEven (q : Rat) : Int :=
  let n : Int := 10 * q.num
  let d : Int := (q.den : Int)
  let f : Int := n.fdiv d
  let r : Int := n - f * d
  if 2 * r < d then f
  else if d < 2 * r then f + 1
  else if f % 2 = 0 then f else f + 1

/-- Fixed-point rendering with one fraction digit of an exact rational;
models the format specification `.1f`. -/
def fmtOneDecimal (q : Rat) : String :=
  let m := roundTenthsHalfEven q
  (if m < 0 then "-" else "") ++
    toString (m.natAbs / 10) ++ "." ++ toString (m.natAbs % 10)

/-- Models the f-string fragment `\x7bconfidence:.1f\x7d`: numbers (and
bools, which Python formats as ints) render with one fraction digit —
an int `n` renders exactly as `n.0` — and any other type raises, marked
by `none`. -/
def format1f : PyVal → Option String
  | .intv n => some (toString n ++ ".0")
  | .floatv q => some (fmtOneDecimal q)
  | .boolv b => some (if b then "1.0" else "0.0")
  | _ => none

/-- The clinical payload as the route layer passes it to
`build_user_prompt`: a `patient_info` mapping, an ordered list of
per-image result mappings, and the conclusion and notes values
(`clinical_payload.get` defaults are applied by the accessors below). -/
structure ClinicalPayload where
  patient_info : PyDict
  results : List PyDict
  conclusion : PyVal
  clinical_notes : PyVal

/-- Models `d.get(k, '').strip()`: an absent key yields the stripped
default `""`; a string value is stripped; `.strip()` on a non-string value
raises `AttributeError`, marked by `none`. -/
def getStrStripped (d : PyDict) (k : String) : Option String :=
  match dGet? d k with
  | none => some ""
  | some (.str s) => some (pyStripStr s)
  | some _ => none

/-- Embedding of the result-enumeration loop of `build_user_prompt`
(lines 787-790): `for i, result in enumerate(results)` appending one line
per result that has a `class_name` key, with `confidence_percent`
defaulting to the int `0`; a non-numeric confidence raises inside the
`.1f` format, marked by `none`. -/
def resultsSection : Nat → List PyDict → Option String
  | _, [] => some ""
  | i, r :: rest =>
    if dContains r "class_name" then
      match format1f (dGetD r "confidence_percent" (.intv 0)) with
      | none => none
      | some cs =>
        match resultsSection (i + 1) rest with
        | none => none
        | some tail =>
          some ("- Image " ++ toString (i + 1) ++ ": " ++
            pyStr (dGetD r "class_name" .null) ++
            " (Confidence: " ++ cs ++ "%)\n" ++ tail)
    else resultsSection (i + 1) rest

/-- The f-string assigned to `prompt` before the result loop
(lines 777-784), with the three interpolations as arguments. -/
def userPromptHeader (name age gender : String) : String :=
  "\nPATIENT DEMOGRAPHICS:\n- Name: " ++ name ++ "\n- Age: " ++ age ++
  "\n- Gender: " ++ gender ++ "\n\nDIABETIC RETINOPATHY ANALYSIS RESULTS:\n"

/-- The f-string appended to `prompt` after the result loop
(lines 792-816), with its interpolations as arguments. -/
def userPromptFooter (name age gender conclusion notes : String) : String :=
  "\nCLINICAL CONCLUSION FROM ANALYSIS:\n" ++ conclusion ++
  "\n\nCLINICAL OBSERVATIONS & CURRENT MEDICATIONS:\n" ++ notes ++
  "\n\nSPECIFIC INSTRUCTIONS FOR AI RESPONSE:\n" ++
  "1. Personalize ALL summaries with the patient\x27s name: " ++ name ++
  "\n2. Consider the patient\x27s age (" ++ age ++ ") and gender (" ++
  gender ++ ") in your recommendations\n" ++
  "3. Reference the clinical observations in your treatment plan\n" ++
  "4. Make medication suggestions appropriate for " ++ age ++
  " year old " ++ gender ++ " patient\n" ++
  "5. Tailor lifestyle recommendations based on patient demographics\n" ++
  "\nADDITIONAL MEDICAL CONTEXT:\n" ++
  "Please consider standard diabetic retinopathy treatment protocols including:\n" ++
  "- Anti-VEGF medications (Ranibizumab/Lucentis, Aflibercept/Eylea, Bevacizumab/Avastin)\n" ++
  "- Corticosteroids (Dexamethasone, Triamcinolone)\n" ++
  "- Laser treatments (Panretinal photocoagulation, Focal laser)\n" ++
  "- Systemic medications for diabetes management\n" ++
  "- Blood pressure control medications\n" ++
  "- Lipid-lowering agents\n" ++
  "\nBased on this comprehensive clinical information for " ++ name ++
  ", please provide structured treatment suggestions and clinical guidance specific to this " ++
  age ++ " year old " ++ gender ++ " patient.\n"

/-- Embedding of `build_user_prompt` (lines 755-817).  `none` marks a
raised exception (`.strip()` on a non-string name field, or a `.1f` format
applied to a non-numeric confidence), which the calling adapter's
`except` handler would turn into an `ErrorResult`. -/
def build_user_prompt (p : ClinicalPayload) : Option String :=
  match getStrStripped p.patient_info "first_name",
        getStrStripped p.patient_info "last_name" with
  | some fn, some ln =>
    let patient_name :=
      if fn ≠ "" ∧ ln ≠ "" then fn ++ " " ++ ln
      else if fn ≠ "" then fn
      else if ln ≠ "" then ln
      else "Unknown Patient"
    let age := pyStr (dGetD p.patient_info "age" (.str "Not specified"))
    let gender := pyStr (dGetD p.patient_info "gender" (.str "Not specified"))
    match resultsSection 0 p.results with
    | none => none
    | some sect =>
      let notes :=
        if pyTruthy p.clinical_notes then pyStr p.clinical_notes
        else "No additional clinical observations or current medications provided"
      some (userPromptHeader patient_name age gender ++ sect ++
        userPromptFooter patient_name age gender (pyStr p.conclusion) notes)
  | _, _ => none

/-- The model configuration mapping as the route layer passes it to the
adapters.  Fields read with `.get` are `Option`-typed with the default
applied at the use site; `model_name` and (for the custom adapter)
`base_url` are also read with bare indexing, whose `KeyError` on an absent
key the embedding marks like any other raised exception. -/
structure ModelConfig where
  provider_name : Option String
  base_url : Option String
  model_name : Option String
  api_key_encrypted : Option String
  temperature : Option Rat
  max_tokens : Option Int

/-- Observable outcome of running an adapter up to its first network
interaction: an error dictionary returned without any network call, an
exception raised inside the `try` block before the network call (the
adapter's `except` handler would wrap its text into an error dictionary,
text not modelled), or the HTTP POST the adapter performs, with its url,
header list, JSON body and timeout in seconds. -/
inductive AdapterStep where
  | errorDict (msg : String)
  | raisedInTry
  | httpPost (url : String) (headers : List (String × String))
      (body : PyVal) (timeoutSec : Nat)

/-- Whether the outcome is a network call. -/
def AdapterStep.isPost : AdapterStep → Bool
  | .httpPost _ _ _ _ => true
  | _ => false

/-- Whether the outcome is an error dictionary returned directly. -/
def AdapterStep.isErrorDict : AdapterStep → Bool
  | .errorDict _ => true
  | _ => false

/-- Header list of the outcome, when it is a network call. -/
def AdapterStep.headers? : AdapterStep → Option (List (String × String))
  | .httpPost _ h _ _ => some h
  | _ => none

/-- Embedding of `AIModelManager.decrypt_api_key` (lines 53-61): an empty
ciphertext decrypts to `""` without touching Fernet; otherwise the Fernet
decryption — abstracted as the function argument `fernet`, `none` marking
a failed decryption — is attempted and any failure is logged and mapped to
`""`. -/
def decrypt_api_key (fernet : String → Option String)
    (encrypted : String) : String :=
  if encrypted = "" then ""
  else
    match fernet encrypted with
    | some s => s
    | none => ""

/-- Embedding of `AIModelManager.mask_api_key` (lines 63-69): the empty
key renders as `""`, keys of length at most eight as exactly eight mask
characters, and longer keys as the first four characters, `length - 8`
mask characters, and the last four characters. -/
def mask_api_key (api_key : String) : String :=
  if api_key = "" then ""
  else if api_key.length ≤ 8 then String.mk (List.replicate 8 '•')
  else
    String.mk (api_key.data.take 4) ++
    String.mk (List.replicate (api_key.length - 8) '•') ++
    String.mk (api_key.data.drop (api_key.length - 4))

/-- The OpenAI-style chat-completion request body shared (with small
variations) by six adapters. -/
def chatCompletionBody (modelName systemPrompt userPrompt : String)
    (temperature : Rat) (maxTokens : Int) (extras : List (String × PyVal)) :
    PyVal :=
  .obj ([("model", .str modelName),
    ("messages", .arr
      [.obj [("role", .str "system"), ("content", .str systemPrompt)],
       .obj [("role", .str "user"), ("content", .str userPrompt)]]),
    ("temperature", .floatv temperature),
    ("max_tokens", .intv maxTokens)] ++ extras)

/-- Embedding of `call_openai` (lines 172-216) up to its network call. -/
def call_openai (fernet : String → Option String) (cfg : ModelConfig)
    (payload : ClinicalPayload) : AdapterStep :=
  let api_key := decrypt_api_key fernet (cfg.api_key_encrypted.getD "")
  if api_key = "" then .errorDict "API key not configured"
  else
    match build_user_prompt payload, cfg.model_name with
    | some up, some mn =>
      .httpPost ((cfg.base_url.getD "https://api.openai.com/v1") ++
          "/chat/completions")
        [("Content-Type", "application/json"),
         ("Authorization", "Bearer " ++ api_key)]
        (chatCompletionBody mn build_system_prompt up
          (cfg.temperature.getD (7 / 10)) (cfg.max_tokens.getD 1000) [])
        30
    | _, _ => .raisedInTry

/-- Replacement of every occurrence of `older` by `newer`; models Python's
`str.replace`.  Fuel-indexed; each step consumes at least one character. -/
def replaceAllAux (older newer : List Char) : Nat → List Char → List Char
  | 0, cs => cs
  | n + 1, cs =>
    match cs with
    | [] => []
    | c :: rest =>
      if older.isPrefixOf (c :: rest) then
        newer ++ replaceAllAux older newer n ((c :: rest).drop older.length)
      else c :: replaceAllAux older newer n rest

/-- Models `s.replace(older, newer)` for a non-empty `older`. -/
def pyReplace (s older newer : String) : String :=
  String.mk (replaceAllAux older.data newer.data (s.data.length + 1) s.data)

/-- Additional instruction block appended to the system prompt by the
Gemini adapter (line 247). -/
def geminiCriticalSuffix : String :=
  "\n\nCRITICAL: Your response MUST be a COMPLETE, VALID JSON object. Do not include any text outside the JSON. Start with \x7b and end with \x7d. Do not use markdown code blocks."

/-- Embedding of `call_gemini` (lines 218-382) up to its network call:
model name taken from config with default `gemini-pro` and stripped of a
`models/` prefix, prompts concatenated into one text part, the
generation config and fixed safety settings, the `v1`-to-`v1beta` switch
for `gemini-1.5` models, and the key passed as a URL query parameter.
The library-added request headers are not modelled (the source passes
none). -/
def call_gemini (fernet : String → Option String) (cfg : ModelConfig)
    (payload : ClinicalPayload) : AdapterStep :=
  let api_key := decrypt_api_key fernet (cfg.api_key_encrypted.getD "")
  if api_key = "" then .errorDict "API key not configured"
  else
    let target0 := cfg.model_name.getD "gemini-pro"
    let target := if "models/".data.isPrefixOf target0.data then
        pyReplace target0 "models/" ""
      else target0
    match build_user_prompt payload with
    | none => .raisedInTry
    | some up =>
      let full_prompt := (build_system_prompt ++ geminiCriticalSuffix) ++
        "\n\n" ++ up
      let generation_config : PyVal := .obj
        [("temperature", .floatv (cfg.temperature.getD (7 / 10))),
         ("maxOutputTokens", .intv (cfg.max_tokens.getD 4000))]
      let data : PyVal := .obj
        [("contents", .arr [.obj
            [("parts", .arr [.obj [("text", .str full_prompt)]])]]),
         ("generationConfig", generation_config),
         ("safetySettings", .arr
           [.obj [("category", .str "HARM_CATEGORY_HARASSMENT"),
                  ("threshold", .str "BLOCK_ONLY_HIGH")],
            .obj [("category", .str "HARM_CATEGORY_HATE_SPEECH"),
                  ("threshold", .str "BLOCK_ONLY_HIGH")],
            .obj [("category", .str "HARM_CATEGORY_SEXUALLY_EXPLICIT"),
                  ("threshold", .str "BLOCK_ONLY_HIGH")],
            .obj [("category", .str "HARM_CATEGORY_DANGEROUS_CONTENT"),
                  ("threshold", .str "BLOCK_ONLY_HIGH")]])]
      let base_url0 := cfg.base_url.getD
        "https://generativelanguage.googleapis.com/v1"
      let base_url :=
        if ¬ containsSubstr base_url0 "v1beta" = true ∧
            containsSubstr target "gemini-1.5" = true then
          "https://generativelanguage.googleapis.com/v1beta"
        else base_url0
      .httpPost (base_url ++ "/models/" ++ target ++
          ":generateContent?key=" ++ api_key)
        [] data 60

/-- The fixed whitelist of Perplexity model names (line 404). -/
def perplexityValidModels : List String :=
  ["sonar-pro", "sonar", "sonar-large-chat", "sonar-small-online",
   "sonar-medium-online", "sonar-large-online"]

/-- Embedding of `call_perplexity` (lines 384-426) up to its network call:
a model name outside the whitelist is silently replaced by
`sonar-medium-chat`, and the body carries `top_p` and `stream` extras with
a 4000-token default. -/
def call_perplexity (fernet : String → Option String) (cfg : ModelConfig)
    (payload : ClinicalPayload) : AdapterStep :=
  let api_key := decrypt_api_key fernet (cfg.api_key_encrypted.getD "")
  if api_key = "" then .errorDict "API key not configured"
  else
    match build_user_prompt payload, cfg.model_name with
    | some up, some mn0 =>
      let mn := if mn0 ∈ perplexityValidModels then mn0
        else "sonar-medium-chat"
      .httpPost ((cfg.base_url.getD "https://api.perplexity.ai") ++
          "/chat/completions")
        [("Content-Type", "application/json"),
         ("Authorization", "Bearer " ++ api_key)]
        (chatCompletionBody mn build_system_prompt up
          (cfg.temperature.getD (7 / 10)) (cfg.max_tokens.getD 4000)
          [("top_p", .floatv (9 / 10)), ("stream", .boolv false)])
        30
    | _, _ => .raisedInTry

/-- Embedding of `call_grok` (lines 499-551) up to its network call. -/
def call_grok (fernet : String → Option String) (cfg : ModelConfig)
    (payload : ClinicalPayload) : AdapterStep :=
  let api_key := decrypt_api_key fernet (cfg.api_key_encrypted.getD "")
  if api_key = "" then .errorDict "API key not configured"
  else
    match build_user_prompt payload, cfg.model_name with
    | some up, some mn =>
      .httpPost ((cfg.base_url.getD "https://api.x.ai/v1") ++
          "/chat/completions")
        [("Content-Type", "application/json"),
         ("Authorization", "Bearer " ++ api_key)]
        (chatCompletionBody mn build_system_prompt up
          (cfg.temperature.getD (7 / 10)) (cfg.max_tokens.getD 1000)
          [("stream", .boolv false)])
        30
    | _, _ => .raisedInTry

/-- Embedding of `call_deepseek` (lines 553-605) up to its network call. -/
def call_deepseek (fernet : String → Option String) (cfg : ModelConfig)
    (payload : ClinicalPayload) : AdapterStep :=
  let api_key := decrypt_api_key fernet (cfg.api_key_encrypted.getD "")
  if api_key = "" then .errorDict "API key not configured"
  else
    match build_user_prompt payload, cfg.model_name with
    | some up, some mn =>
      .httpPost ((cfg.base_url.getD "https://api.deepseek.com") ++
          "/chat/completions")
        [("Content-Type", "application/json"),
         ("Authorization", "Bearer " ++ api_key)]
        (chatCompletionBody mn build_system_prompt up
          (cfg.temperature.getD (7 / 10)) (cfg.max_tokens.getD 1000)
          [("stream", .boolv false)])
        30
    | _, _ => .raisedInTry

/-- Embedding of `call_glm` (lines 607-659) up to its network call. -/
def call_glm (fernet : String → Option String) (cfg : ModelConfig)
    (payload : ClinicalPayload) : AdapterStep :=
  let api_key := decrypt_api_key fernet (cfg.api_key_encrypted.getD "")
  if api_key = "" then .errorDict "API key not configured"
  else
    match build_user_prompt payload, cfg.model_name with
    | some up, some mn =>
      .httpPost ((cfg.base_url.getD "https://open.bigmodel.cn/api/paas/v4") ++
          "/chat/completions")
        [("Content-Type", "application/json"),
         ("Authorization", "Bearer " ++ api_key)]
        (chatCompletionBody mn build_system_prompt up
          (cfg.temperature.getD (7 / 10)) (cfg.max_tokens.getD 1000)
          [("stream", .boolv false)])
        30
    | _, _ => .raisedInTry

/-- Embedding of `call_custom_provider` (lines 661-720) up to its network
call.  Unlike the six other adapters it performs no emptiness check on the
decrypted key: an empty key merely omits the `Authorization` header, the
request is still sent.  `base_url` is read with bare indexing
(`model_config['base_url']`), so its absence raises. -/
def call_custom_provider (fernet : String → Option String)
    (cfg : ModelConfig) (payload : ClinicalPayload) : AdapterStep :=
  let api_key := decrypt_api_key fernet (cfg.api_key_encrypted.getD "")
  let headers := [("Content-Type", "application/json")] ++
    (if api_key ≠ "" then [("Authorization", "Bearer " ++ api_key)] else [])
  match build_user_prompt payload, cfg.model_name with
  | some up, some mn =>
    match cfg.base_url with
    | none => .raisedInTry
    | some burl =>
      .httpPost (burl ++ "/chat/completions") headers
        (chatCompletionBody mn build_system_prompt up
          (cfg.temperature.getD (7 / 10)) (cfg.max_tokens.getD 1000)
          [("stream", .boolv false)])
        30
  | _, _ => .raisedInTry

/-- The fixed provider registry of `generate_prescription_suggestions`
(lines 905-913), in source order. -/
def providerRegistry : List String :=
  ["openai", "gemini", "perplexity", "grok", "deepseek", "glm", "custom"]

/-- Embedding of `generate_prescription_suggestions` (lines 900-918): the
provider name is read with `.get('provider_name', '')`, lower-cased and
looked up in the fixed registry; a hit dispatches to that adapter, a miss
returns the unsupported-provider error dictionary without invoking any
adapter. -/
def generate_prescription_suggestions (fernet : String → Option String)
    (cfg : ModelConfig) (payload : ClinicalPayload) : AdapterStep :=
  let provider := lowerStr (cfg.provider_name.getD "")
  if provider = "openai" then call_openai fernet cfg payload
  else if provider = "gemini" then call_gemini fernet cfg payload
  else if provider = "perplexity" then call_perplexity fernet cfg payload
  else if provider = "grok" then call_grok fernet cfg payload
  else if provider = "deepseek" then call_deepseek fernet cfg payload
  else if provider = "glm" then call_glm fernet cfg payload
  else if provider = "custom" then call_custom_provider fernet cfg payload
  else .errorDict ("Unsupported provider: " ++ provider)

/-- Fragment of a compiled regex as used by the HTML-error patterns of
`call_perplexity`: a literal, or a star over a one-character class
(`[^>]*`, `[^"]*` and `.*?` — with `re.DOTALL` off, `.` is any character
except newline; laziness is irrelevant for match existence). -/
inductive HtmlPat where
  | lit (l : List Char)
  | star (p : Char → Bool)

/-- Suffixes reachable by letting a starred class consume zero or more
matching characters from the front of the input. -/
def starDrops (p : Char → Bool) : List Char → List (List Char)
  | [] => [[]]
  | c :: rest => (c :: rest) :: (if p c then starDrops p rest else [])

/-- All remainders of the input after matching the pattern sequence at its
front (the standard nondeterministic-matching semantics; a nonempty result
means the sequence matches here). -/
def patSuffixes : List HtmlPat → List Char → List (List Char)
  | [], cs => [cs]
  | .lit l :: ps, cs =>
    if l.isPrefixOf cs then patSuffixes ps (cs.drop l.length) else []
  | .star p :: ps, cs => (starDrops p cs).flatMap (patSuffixes ps)

/-- Models the truthiness of `re.search(pattern, s, re.IGNORECASE)` for
the patterns above: the subject is lower-cased (the pattern literals are
given lower-case) and a match is attempted at every start position. -/
def htmlSearch (ps : List HtmlPat) (s : String) : Bool :=
  let rec scan : List Char → Bool
    | [] => !(patSuffixes ps []).isEmpty
    | c :: rest => !(patSuffixes ps (c :: rest)).isEmpty || scan rest
  scan (s.data.map Char.toLower)

/-- The compiled form of `<title[^>]*>(.*?)</title>`. -/
def patTitle : List HtmlPat :=
  [.lit "<title".data, .star (fun c => c != '>'), .lit ">".data,
   .star (fun c => c != '\n'), .lit "</title>".data]

/-- The compiled form of `<h1[^>]*>(.*?)</h1>`. -/
def patH1 : List HtmlPat :=
  [.lit "<h1".data, .star (fun c => c != '>'), .lit ">".data,
   .star (fun c => c != '\n'), .lit "</h1>".data]

/-- The compiled form of `<div[^>]*class="[^"]*error[^"]*"[^>]*>(.*?)</div>`. -/
def patDivError : List HtmlPat :=
  [.lit "<div".data, .star (fun c => c != '>'), .lit "class=\"".data,
   .star (fun c => c != '"'), .lit "error".data, .star (fun c => c != '"'),
   .lit "\"".data, .star (fun c => c != '>'), .lit ">".data,
   .star (fun c => c != '\n'), .lit "</div>".data]

/-- The compiled form of `<p[^>]*>(.*?error.*?)</p>`. -/
def patPError : List HtmlPat :=
  [.lit "<p".data, .star (fun c => c != '>'), .lit ">".data,
   .star (fun c => c != '\n'), .lit "error".data,
   .star (fun c => c != '\n'), .lit "</p>".data]

/-- The compiled form of `<body[^>]*>(.*?)</body>`. -/
def patBody : List HtmlPat :=
  [.lit "<body".data, .star (fun c => c != '>'), .lit ">".data,
   .star (fun c => c != '\n'), .lit "</body>".data]

/-- The pattern list of `call_perplexity` (lines 436-442), in source
order. -/
def htmlPatterns : List (List HtmlPat) :=
  [patTitle, patH1, patDivError, patPError, patBody]

/-- Models `re.sub('<[^>]*>', '', s)`: each `<`-to-next-`>` span is
deleted; a `<` with no later `>` starts no match and is kept.
Fuel-indexed; each step consumes at least one character. -/
def stripTagsAux : Nat → List Char → List Char
  | 0, cs => cs
  | _ + 1, [] => []
  | n + 1, '<' :: rest =>
    match rest.dropWhile (fun c => c != '>') with
    | '>' :: r2 => stripTagsAux n r2
    | _ => '<' :: stripTagsAux n rest
  | n + 1, c :: rest => c :: stripTagsAux n rest

/-- Models `re.sub('\s+', ' ', s)`: each maximal whitespace run collapses
to one space.  Fuel-indexed; each step consumes at least one character. -/
def collapseWsAux : Nat → List Char → List Char
  | 0, cs => cs
  | _ + 1, [] => []
  | n + 1, c :: rest =>
    if reIsSpace c then ' ' :: collapseWsAux n (rest.dropWhile (fun a => reIsSpace a))
    else c :: collapseWsAux n rest

/-- The cleaned error text of an element string (lines 449-450):
tags stripped, whitespace collapsed, ends stripped. -/
def htmlCleanText (e : String) : String :=
  pyStripStr (String.mk (collapseWsAux (e.data.length + 1)
    (stripTagsAux (e.data.length + 1) e.data)))

/-- The double loop of lines 444-452: patterns outer, elements inner; the
first pair whose pattern matches the element and whose cleaned text is
nonempty and longer than ten characters returns that cleaned text. -/
def findHtmlHit (elements : List String) : List (List HtmlPat) → Option String
  | [] => none
  | p :: ps =>
    match elements.find? (fun e =>
        htmlSearch p e && htmlCleanText e != "" &&
        decide (10 < (htmlCleanText e).length)) with
    | some e => some (htmlCleanText e)
    | none => findHtmlHit elements ps

/-- Embedding of the HTML-error analysis of `call_perplexity`
(lines 433-465), entered once the stripped response text starts with `<`.
`elements` stands for `[str(e) for e in BeautifulSoup(response.text,
'html.parser').find_all(True)]`; `text` is the stripped response text;
`status` is `response.status_code`.  A pattern hit returns the generic
HTML error with the cleaned text truncated to 200 characters; otherwise
the four substring probes run in order; otherwise the generic
status-carrying message.  (`BeautifulSoup` and this analysis raise on none
of these operations, so the surrounding `except` is not modelled.) -/
def perplexity_html_branch (elements : List String) (text : String)
    (status : Nat) : PyDict :=
  match findHtmlHit elements htmlPatterns with
  | some et => [("error", .str ("HTML Error: " ++ takeChars 200 et))]
  | none =>
    if containsSubstr (lowerStr text) "unauthorized" ||
        containsSubstr text "401" then
      [("error", .str "Authentication Error: Invalid API key or unauthorized access")]
    else if containsSubstr (lowerStr text) "rate limit" ||
        containsSubstr text "429" then
      [("error", .str "Rate Limit Error: Too many requests to the API")]
    else if containsSubstr (lowerStr text) "not found" ||
        containsSubstr text "404" then
      [("error", .str "Endpoint Error: API endpoint not found")]
    else if containsSubstr (lowerStr text) "server error" ||
        containsSubstr text "500" then
      [("error", .str "Server Error: API server issue")]
    else
      [("error", .str ("HTML Error Page (Status: " ++ toString status ++ ")"))]

/-- Embedding of lines 428-431 and 433-465 of `call_perplexity`: the
response text is stripped and, when it starts with `<`, the HTML-error
analysis produces the returned error dictionary; otherwise (`none`) the
adapter proceeds to the content-type and status handling. -/
def call_perplexity_html_check (elements : List String) (respText : String)
    (status : Nat) : Option PyDict :=
  let t := pyStripStr respText
  match t.data with
  | '<' :: _ => some (perplexity_html_branch elements t status)
  | _ => none

/-- The response body of the Perplexity authentication-failure scenario. -/
def perplexity401Body : String := "<html><body>401 Unauthorized</body></html>"

/-- Models the BeautifulSoup call of line 434 on `perplexity401Body`
specifically: `BeautifulSoup(body, 'html.parser').find_all(True)` yields
the `html` and `body` tag objects in document order, and `str()` renders
each as its subtree markup. -/
def soupElements401 : List String :=
  ["<html><body>401 Unauthorized</body></html>",
   "<body>401 Unauthorized</body>"]

/-- The strict-parse result underlying the success path of
`parse_ai_response`: the raw key/value pairs when the cleaned content
decodes to a JSON object, `none` otherwise. -/
def strict_json_object (s : String) : Option (List (String × PyVal)) :=
  match jsonLoads (cleanContent s) with
  | some (.obj kvs) => some kvs
  | _ => none

/-- Concatenation of a list of strings, in order. -/
def concatAll (l : List String) : String :=
  l.foldr (fun a b => a ++ b) ""

/-- Pairs each list element with its index, starting from `n`; the
embedding of Python's `enumerate`. -/
def idxFrom {α : Type} : Nat → List α → List (Nat × α)
  | _, [] => []
  | n, x :: xs => (n, x) :: idxFrom (n + 1) xs

/-- Projection to the string value of a leading `error` entry, used to
compare error dictionaries. -/
def firstErrStr : PyDict → String
  | ("error", .str s) :: _ => s
  | _ => ""



/-- The truncated provider text on which the claimed treatment-plan
extraction visibly fails: strict parsing fails (no closing brace), the two
summaries are extractable, and two quoted treatment steps follow the
`treatment_plan` key. -/
def c5FailingInput : String :=
  "\x7b\"summary_for_doctor\": \"S\", \"patient_friendly_summary\": \"P\", \"treatment_plan\": [\"Step 1\", \"Step 2\""

/-- The result of parsing the minimal JSON object: all three required
fields placeholdered, all five optional fields defaulted. -/
def emptyObjectResult : PyDict :=
  [("summary_for_doctor",
    PyVal.str "Information for summary_for_doctor was not generated."),
   ("patient_friendly_summary",
    PyVal.str "Information for patient_friendly_summary was not generated."),
   ("treatment_plan",
    PyVal.str "Information for treatment_plan was not generated."),
   ("medication_suggestions", PyVal.arr []),
   ("lifestyle_recommendations", PyVal.arr []),
   ("followup_interval", PyVal.str "Refer to ophthalmologist"),
   ("red_flag_warnings", PyVal.arr []),
   ("disclaimer", PyVal.str "AI-generated. Consult a professional.")]

/-- The configuration used to exercise the custom adapter with no stored
key: a custom provider with a base url but an absent encrypted key. -/
def c4CustomCfg : ModelConfig :=
  ModelConfig.mk (some "custom") (some "http://localhost:9999") (some "m")
    none none none

/-- The minimal clinical payload used by the adapter scenarios. -/
def c4Payload : ClinicalPayload :=
  ClinicalPayload.mk [] [] (.str "") (.str "")

/-- The clinical payload of the spec\x27s example: Jane Doe, 54, female,
one image classified `Mild` at confidence 82.3. -/
def c9Payload : ClinicalPayload :=
  ClinicalPayload.mk
    [("first_name", .str "Jane"), ("last_name", .str "Doe"),
     ("age", .intv 54), ("gender", .str "female")]
    [[("class_name", .str "Mild"),
      ("confidence_percent", .floatv (mkRat 823 10))]]
    (.str "") (.str "")

theorem dContains_cons (p : String × PyVal) (rest : PyDict) (k) :
    dContains (p :: rest) k = (decide (p.1 = k) || dContains rest k) := by
  simp [dContains]

theorem dGet?_cons (p : String × PyVal) (rest : PyDict) (k) :
    dGet? (p :: rest) k =
      (if p.1 = k then some p.2 else dGet? rest k) := by
  by_cases h : p.1 = k <;> simp [dGet?, List.find?, h]

theorem dContains_dSet (d : PyDict) (k v k') :
    dContains (dSet d k v) k' = (dContains d k' || decide (k = k')) := by
  induction d with
  | nil => simp [dSet, dContains]
  | cons p rest ih =>
    obtain ⟨pk, pv⟩ := p
    by_cases h : pk = k
    · subst h
      simp only [dSet, if_pos rfl, dContains_cons]
      cases h2 : decide (pk = k') <;> simp [h2, dContains_cons]
    · simp only [dSet, if_neg h, dContains_cons, ih]
      cases h2 : decide (pk = k') <;> simp [h2, Bool.or_assoc]

theorem dGet?_dSet_self (d : PyDict) (k v) :
    dGet? (dSet d k v) k = some v := by
  induction d with
  | nil => simp [dSet, dGet?, List.find?]
  | cons p rest ih =>
    obtain ⟨pk, pv⟩ := p
    by_cases h : pk = k
    · subst h; simp [dSet, dGet?, List.find?]
    · simp only [dSet, if_neg h]
      rw [dGet?_cons]
      simp [h, ih]

theorem dGet?_dSet_ne (d : PyDict) (k v k') (h : k ≠ k') :
    dGet? (dSet d k v) k' = dGet? d k' := by
  induction d with
  | nil => simp [dSet, dGet?_cons, h, dGet?, List.find?]
  | cons p rest ih =>
    obtain ⟨pk, pv⟩ := p
    by_cases h2 : pk = k
    · subst h2
      simp [dSet, dGet?_cons, h]
    · simp only [dSet, if_neg h2]
      rw [dGet?_cons, dGet?_cons, ih]

theorem dContains_append (d e : PyDict) (k) :
    dContains (d ++ e) k = (dContains d k || dContains e k) := by
  simp [dContains, List.any_append]

theorem dGet?_append_of_absent (d e : PyDict) (k)
    (h : dContains d k = false) :
    dGet? (d ++ e) k = dGet? e k := by
  induction d with
  | nil => simp
  | cons p rest ih =>
    obtain ⟨pk, pv⟩ := p
    rw [dContains_cons] at h
    simp only [Bool.or_eq_false_iff] at h
    rw [List.cons_append, dGet?_cons]
    simp only [if_neg (of_decide_eq_false h.1)]
    exact ih h.2

theorem dGet?_append_left (d e : PyDict) (k)
    (h : dContains d k = true) :
    dGet? (d ++ e) k = dGet? d k := by
  induction d with
  | nil => simp [dContains] at h
  | cons p rest ih =>
    obtain ⟨pk, pv⟩ := p
    rw [List.cons_append, dGet?_cons, dGet?_cons]
    by_cases h2 : pk = k
    · simp [h2]
    · rw [dContains_cons] at h
      simp only [if_neg h2]
      exact ih (by
        rcases Bool.or_eq_true_iff.mp h with h3 | h3
        · exact absurd (of_decide_eq_true h3) h2
        · exact h3)

theorem dGet?_eq_none_of_not_contains (d : PyDict) (k)
    (h : dContains d k = false) : dGet? d k = none := by
  induction d with
  | nil => simp [dGet?, List.find?]
  | cons p rest ih =>
    obtain ⟨pk, pv⟩ := p
    rw [dContains_cons] at h
    simp only [Bool.or_eq_false_iff] at h
    rw [dGet?_cons, if_neg (of_decide_eq_false h.1)]
    exact ih h.2

theorem dContains_setdefault (d : PyDict) (k v k') :
    dContains (dSetdefault d k v) k' =
      (dContains d k' || decide (k = k')) := by
  unfold dSetdefault
  by_cases h : dContains d k
  · rw [if_pos h]
    by_cases h2 : k = k'
    · subst h2; simp [h]
    · simp [h2]
  · rw [if_neg (by simp [h]), dContains_append]
    simp [dContains]

theorem dGet?_setdefault_self_absent (d : PyDict) (k v)
    (h : dContains d k = false) :
    dGet? (dSetdefault d k v) k = some v := by
  unfold dSetdefault
  rw [if_neg (by simp [h]), dGet?_append_of_absent _ _ _ h]
  simp [dGet?, List.find?]

theorem dGet?_setdefault_ne (d : PyDict) (k v k') (h : k ≠ k') :
    dGet? (dSetdefault d k v) k' = dGet? d k' := by
  unfold dSetdefault
  by_cases h2 : dContains d k
  · rw [if_pos h2]
  · rw [if_neg (by simp [h2])]
    by_cases h3 : dContains d k'
    · rw [dGet?_append_left _ _ _ h3]
    · rw [dGet?_append_of_absent d [(k, v)] k' (by simpa using h3),
        dGet?_eq_none_of_not_contains d k' (by simpa using h3)]
      simp [dGet?_cons, h, dGet?, List.find?]

theorem apply_defaults_expand (d : PyDict) :
    apply_response_defaults d =
      dSetdefault (dSetdefault (dSetdefault (dSetdefault (dSetdefault
        (requiredDefaultStep (requiredDefaultStep (requiredDefaultStep d
          "summary_for_doctor") "patient_friendly_summary") "treatment_plan")
        "medication_suggestions" (.arr []))
        "lifestyle_recommendations" (.arr []))
        "followup_interval" (.str "Refer to ophthalmologist"))
        "red_flag_warnings" (.arr []))
        "disclaimer" (.str "AI-generated. Consult a professional.") := by
  simp only [apply_response_defaults, requiredFields, List.foldl]

theorem dContains_setdefault_mono (d : PyDict) (k v k')
    (h : dContains d k' = true) :
    dContains (dSetdefault d k v) k' = true := by
  rw [dContains_setdefault, h]
  rfl

theorem dContains_setdefault_self (d : PyDict) (k v) :
    dContains (dSetdefault d k v) k = true := by
  rw [dContains_setdefault]
  simp

theorem dContains_requiredStep_self (d : PyDict) (f : String) :
    dContains (requiredDefaultStep d f) f = true := by
  unfold requiredDefaultStep
  by_cases h : dContains d f
  · simp [h]
  · simp [h, dContains_dSet]

theorem dContains_requiredStep_mono (d : PyDict) (f k : String)
    (h : dContains d k = true) :
    dContains (requiredDefaultStep d f) k = true := by
  unfold requiredDefaultStep
  by_cases h2 : dContains d f
  · simp [h2, h]
  · simp [h2, dContains_dSet, h]

theorem dContains_requiredStep_other (d : PyDict) (f k : String)
    (h : f ≠ k) :
    dContains (requiredDefaultStep d f) k = dContains d k := by
  unfold requiredDefaultStep
  by_cases h2 : dContains d f
  · simp [h2]
  · simp [h2, dContains_dSet, h]

theorem dGet?_requiredStep_other (d : PyDict) (f k : String) (h : f ≠ k) :
    dGet? (requiredDefaultStep d f) k = dGet? d k := by
  unfold requiredDefaultStep
  by_cases h2 : dContains d f
  · simp [h2]
  · simp [h2, dGet?_dSet_ne _ _ _ _ h]

theorem dGet?_requiredStep_self_absent (d : PyDict) (f : String)
    (h : dContains d f = false) :
    dGet? (requiredDefaultStep d f) f =
      some (.str (requiredPlaceholder f)) := by
  unfold requiredDefaultStep
  simp [h, dGet?_dSet_self]

theorem apply_defaults_contains_all (d : PyDict) :
    dContains (apply_response_defaults d) "summary_for_doctor" = true ∧
    dContains (apply_response_defaults d) "patient_friendly_summary" = true ∧
    dContains (apply_response_defaults d) "treatment_plan" = true ∧
    dContains (apply_response_defaults d) "medication_suggestions" = true ∧
    dContains (apply_response_defaults d) "lifestyle_recommendations" = true ∧
    dContains (apply_response_defaults d) "followup_interval" = true ∧
    dContains (apply_response_defaults d) "red_flag_warnings" = true ∧
    dContains (apply_response_defaults d) "disclaimer" = true := by
  rw [apply_defaults_expand]
  refine ⟨?_, ?_, ?_, ?_, ?_, ?_, ?_, ?_⟩
  · exact dContains_setdefault_mono _ _ _ _ (dContains_setdefault_mono _ _ _ _
      (dContains_setdefault_mono _ _ _ _ (dContains_setdefault_mono _ _ _ _
      (dContains_setdefault_mono _ _ _ _ (dContains_requiredStep_mono _ _ _
      (dContains_requiredStep_mono _ _ _
      (dContains_requiredStep_self _ _)))))))
  · exact dContains_setdefault_mono _ _ _ _ (dContains_setdefault_mono _ _ _ _
      (dContains_setdefault_mono _ _ _ _ (dContains_setdefault_mono _ _ _ _
      (dContains_setdefault_mono _ _ _ _ (dContains_requiredStep_mono _ _ _
      (dContains_requiredStep_self _ _))))))
  · exact dContains_setdefault_mono _ _ _ _ (dContains_setdefault_mono _ _ _ _
      (dContains_setdefault_mono _ _ _ _ (dContains_setdefault_mono _ _ _ _
      (dContains_setdefault_mono _ _ _ _ (dContains_requiredStep_self _ _)))))
  · exact dContains_setdefault_mono _ _ _ _ (dContains_setdefault_mono _ _ _ _
      (dContains_setdefault_mono _ _ _ _ (dContains_setdefault_mono _ _ _ _
      (dContains_setdefault_self _ _ _))))
  · exact dContains_setdefault_mono _ _ _ _ (dContains_setdefault_mono _ _ _ _
      (dContains_setdefault_mono _ _ _ _ (dContains_setdefault_self _ _ _)))
  · exact dContains_setdefault_mono _ _ _ _ (dContains_setdefault_mono _ _ _ _
      (dContains_setdefault_self _ _ _))
  · exact dContains_setdefault_mono _ _ _ _ (dContains_setdefault_self _ _ _)
  · exact dContains_setdefault_self _ _ _

theorem contains_reqChain (d : PyDict) (k : String)
    (h1 : "summary_for_doctor" ≠ k) (h2 : "patient_friendly_summary" ≠ k)
    (h3 : "treatment_plan" ≠ k) :
    dContains (requiredDefaultStep (requiredDefaultStep (requiredDefaultStep
        d "summary_for_doctor") "patient_friendly_summary") "treatment_plan")
      k = dContains d k := by
  rw [dContains_requiredStep_other _ _ _ h3,
    dContains_requiredStep_other _ _ _ h2,
    dContains_requiredStep_other _ _ _ h1]

theorem apply_defaults_required_absent (d : PyDict) :
    (dContains d "summary_for_doctor" = false →
      dGet? (apply_response_defaults d) "summary_for_doctor" =
        some (.str (requiredPlaceholder "summary_for_doctor"))) ∧
    (dContains d "patient_friendly_summary" = false →
      dGet? (apply_response_defaults d) "patient_friendly_summary" =
        some (.str (requiredPlaceholder "patient_friendly_summary"))) ∧
    (dContains d "treatment_plan" = false →
      dGet? (apply_response_defaults d) "treatment_plan" =
        some (.str (requiredPlaceholder "treatment_plan"))) := by
  rw [apply_defaults_expand]
  refine ⟨fun h => ?_, fun h => ?_, fun h => ?_⟩ <;>
    rw [dGet?_setdefault_ne _ _ _ _ (by decide),
      dGet?_setdefault_ne _ _ _ _ (by decide),
      dGet?_setdefault_ne _ _ _ _ (by decide),
      dGet?_setdefault_ne _ _ _ _ (by decide),
      dGet?_setdefault_ne _ _ _ _ (by decide)]
  · rw [dGet?_requiredStep_other _ _ _ (by decide),
      dGet?_requiredStep_other _ _ _ (by decide)]
    exact dGet?_requiredStep_self_absent _ _ h
  · rw [dGet?_requiredStep_other _ _ _ (by decide)]
    exact dGet?_requiredStep_self_absent _ _
      (by rw [dContains_requiredStep_other _ _ _ (by decide)]; exact h)
  · exact dGet?_requiredStep_self_absent _ _
      (by rw [dContains_requiredStep_other _ _ _ (by decide),
            dContains_requiredStep_other _ _ _ (by decide)]; exact h)

theorem apply_defaults_optional_absent (d : PyDict) :
    (dContains d "medication_suggestions" = false →
      dGet? (apply_response_defaults d) "medication_suggestions" =
        some (.arr [])) ∧
    (dContains d "lifestyle_recommendations" = false →
      dGet? (apply_response_defaults d) "lifestyle_recommendations" =
        some (.arr [])) ∧
    (dContains d "followup_interval" = false →
      dGet? (apply_response_defaults d) "followup_interval" =
        some (.str "Refer to ophthalmologist")) ∧
    (dContains d "red_flag_warnings" = false →
      dGet? (apply_response_defaults d) "red_flag_warnings" =
        some (.arr [])) ∧
    (dContains d "disclaimer" = false →
      dGet? (apply_response_defaults d) "disclaimer" =
        some (.str "AI-generated. Consult a professional.")) := by
  rw [apply_defaults_expand]
  refine ⟨fun h => ?_, fun h => ?_, fun h => ?_, fun h => ?_, fun h => ?_⟩
  · rw [dGet?_setdefault_ne _ _ _ _ (by decide),
      dGet?_setdefault_ne _ _ _ _ (by decide),
      dGet?_setdefault_ne _ _ _ _ (by decide),
      dGet?_setdefault_ne _ _ _ _ (by decide)]
    exact dGet?_setdefault_self_absent _ _ _
      (by rw [contains_reqChain _ _ (by decide) (by decide) (by decide)]; exact h)
  · rw [dGet?_setdefault_ne _ _ _ _ (by decide),
      dGet?_setdefault_ne _ _ _ _ (by decide),
      dGet?_setdefault_ne _ _ _ _ (by decide)]
    exact dGet?_setdefault_self_absent _ _ _ (by
      rw [dContains_setdefault, contains_reqChain _ _ (by decide) (by decide) (by decide), h]
      decide)
  · rw [dGet?_setdefault_ne _ _ _ _ (by decide),
      dGet?_setdefault_ne _ _ _ _ (by decide)]
    exact dGet?_setdefault_self_absent _ _ _ (by
      rw [dContains_setdefault, dContains_setdefault,
        contains_reqChain _ _ (by decide) (by decide) (by decide), h]
      decide)
  · rw [dGet?_setdefault_ne _ _ _ _ (by decide)]
    exact dGet?_setdefault_self_absent _ _ _ (by
      rw [dContains_setdefault, dContains_setdefault, dContains_setdefault,
        contains_reqChain _ _ (by decide) (by decide) (by decide), h]
      decide)
  · exact dGet?_setdefault_self_absent _ _ _ (by
      rw [dContains_setdefault, dContains_setdefault, dContains_setdefault,
        dContains_setdefault,
        contains_reqChain _ _ (by decide) (by decide) (by decide), h]
      decide)

theorem parse_ok_cases (s : String) (d : PyDict)
    (h : parse_ai_response s = .ok d) :
    (∃ kvs, ¬ s = "" ∧ strict_json_object s = some kvs ∧
      d = apply_response_defaults (dictOfPairs kvs)) ∨
    (parse_ai_response_body s = .error () ∧
      d = extract_partial_json_body s) := by
  unfold parse_ai_response at h
  cases hb : parse_ai_response_body s with
  | ok d' =>
    rw [hb] at h
    injection h with h
    subst h
    left
    unfold parse_ai_response_body at hb
    by_cases hs : s = ""
    · rw [if_pos hs] at hb
      exact absurd hb (by simp)
    · rw [if_neg hs] at hb
      unfold strict_json_object
      cases hj : jsonLoads (cleanContent s) with
      | none =>
        rw [hj] at hb
        exact absurd hb (by simp)
      | some v =>
        rw [hj] at hb
        cases v with
        | obj kvs =>
          simp only [Except.ok.injEq] at hb
          exact ⟨kvs, hs, rfl, hb.symm⟩
        | null => exact absurd hb (by simp)
        | boolv b => exact absurd hb (by simp)
        | intv n => exact absurd hb (by simp)
        | floatv q => exact absurd hb (by simp)
        | str s2 => exact absurd hb (by simp)
        | arr xs => exact absurd hb (by simp)
  | error e =>
    rw [hb] at h
    unfold extract_partial_json at h
    injection h with h
    cases e
    exact Or.inr ⟨rfl, h.symm⟩

theorem extract_body_contains (content : String) :
    dContains (extract_partial_json_body content) "summary_for_doctor" = true ∧
    dContains (extract_partial_json_body content) "patient_friendly_summary" = true ∧
    dContains (extract_partial_json_body content) "treatment_plan" = true := by
  refine ⟨?_, ?_, ?_⟩ <;> simp [extract_partial_json_body, dContains]

theorem extract_body_summary_miss (content : String)
    (h : searchKeyQuoted "summary_for_doctor" content = none) :
    dGet? (extract_partial_json_body content) "summary_for_doctor" =
      some (.str "Partial summary extracted from truncated response") := by
  unfold extract_partial_json_body
  rw [h]
  rfl

theorem extract_body_patient_miss (content : String)
    (h : searchKeyQuoted "patient_friendly_summary" content = none) :
    dGet? (extract_partial_json_body content) "patient_friendly_summary" =
      some (.str "Patient-friendly summary not available in truncated response") := by
  unfold extract_partial_json_body
  rw [h]
  rfl

theorem anchors_filter_head (r2 : List Char) (w p : Nat)
    (hp : ((endAnchors r2).filter (fun a => a ≤ w)).getLast? = some p) :
    ((endAnchors r2).filter (fun a => p ≤ a)).head? = some p := by
  unfold endAnchors at hp ⊢
  by_cases hnl : r2.getLast? = some '\n'
  · have hlen : 1 ≤ r2.length := by
      cases r2 with
      | nil => simp at hnl
      | cons a l => simp
    rw [if_pos hnl] at hp ⊢
    simp only [List.cons_append, List.nil_append] at hp ⊢
    by_cases hB : r2.length ≤ w
    · have hA : r2.length - 1 ≤ w := by omega
      rw [List.filter_cons_of_pos (by simpa using hA),
        List.filter_cons_of_pos (by simpa using hB)] at hp
      simp at hp
      subst hp
      rw [List.filter_cons_of_neg (by simp; omega),
        List.filter_cons_of_pos (by simp)]
      simp
    · by_cases hA : r2.length - 1 ≤ w
      · rw [List.filter_cons_of_pos (by simpa using hA),
          List.filter_cons_of_neg (by simpa using hB)] at hp
        simp at hp
        subst hp
        rw [List.filter_cons_of_pos (by simp),
          List.filter_cons_of_pos (by simp)]
        simp
      · rw [List.filter_cons_of_neg (by simpa using hA),
          List.filter_cons_of_neg (by simpa using hB)] at hp
        simp at hp
  · rw [if_neg hnl] at hp ⊢
    simp only [List.nil_append] at hp ⊢
    by_cases hB : r2.length ≤ w
    · rw [List.filter_cons_of_pos (by simpa using hB)] at hp
      simp at hp
      subst hp
      rw [List.filter_cons_of_pos (by simp)]
      simp
    · rw [List.filter_cons_of_neg (by simpa using hB)] at hp
      simp at hp

theorem treatmentGroupAt_empty (cs : List Char) (g : String)
    (h : treatmentGroupAt cs = some g) : g = "" := by
  unfold treatmentGroupAt at h
  cases h1 : stripLit ("\"treatment_plan\"".data) cs with
  | none => rw [h1] at h; exact absurd h (by simp)
  | some r1 =>
    rw [h1] at h
    dsimp only at h
    cases h2 : r1.dropWhile (fun a => reIsSpace a) with
    | nil => rw [h2] at h; exact absurd h (by simp)
    | cons c r2 =>
      rw [h2] at h
      dsimp only at h
      by_cases hc : c = ':'
      · rw [if_pos hc] at h
        cases h3 : ((endAnchors r2).filter
            (fun a => a ≤ (r2.takeWhile (fun a => reIsSpace a)).length)).getLast? with
        | none => rw [h3] at h; exact absurd h (by simp)
        | some p =>
          rw [h3] at h
          dsimp only at h
          rw [anchors_filter_head _ _ _ h3] at h
          dsimp only at h
          simp only [Option.some.injEq] at h
          subst h
          simp
      · rw [if_neg hc] at h
        exact absurd h (by simp)

theorem treatmentGroupSearch_empty (cs : List Char) (g : String)
    (h : treatmentGroupSearch cs = some g) : g = "" := by
  induction cs with
  | nil => simp [treatmentGroupSearch] at h
  | cons c rest ih =>
    unfold treatmentGroupSearch at h
    cases h1 : treatmentGroupAt (c :: rest) with
    | some g2 =>
      rw [h1] at h
      injection h with h
      subst h
      exact treatmentGroupAt_empty _ _ h1
    | none =>
      rw [h1] at h
      exact ih h

theorem resultsSection_eq (rs : List PyDict) :
    ∀ n : Nat, (∀ r ∈ rs, dContains r "class_name" = true) →
    (∀ r ∈ rs,
      (format1f (dGetD r "confidence_percent" (PyVal.intv 0))).isSome = true) →
    resultsSection n rs = some (concatAll ((idxFrom n rs).map (fun pr =>
      "- Image " ++ toString (pr.1 + 1) ++ ": " ++
      pyStr (dGetD pr.2 "class_name" PyVal.null) ++
      " (Confidence: " ++
      (format1f (dGetD pr.2 "confidence_percent" (PyVal.intv 0))).getD "" ++
      "%)\n"))) := by
  induction rs with
  | nil =>
    intro n _ _
    simp [resultsSection, idxFrom, concatAll]
  | cons r rest ih =>
    intro n h1 h2
    have hc := h1 r (List.mem_cons_self _ _)
    have hf := h2 r (List.mem_cons_self _ _)
    obtain ⟨cs, hcs⟩ := Option.isSome_iff_exists.mp hf
    unfold resultsSection
    rw [if_pos hc, hcs,
      ih (n + 1) (fun r hr => h1 r (List.mem_cons_of_mem _ hr))
        (fun r hr => h2 r (List.mem_cons_of_mem _ hr))]
    simp only [idxFrom, List.map_cons, concatAll, List.foldr_cons, hcs,
      Option.getD_some]

theorem body_ok_of_strict (s : String) (kvs : List (String × PyVal))
    (h2 : strict_json_object s = some kvs) (hs : ¬ s = "") :
    parse_ai_response_body s =
      .ok (apply_response_defaults (dictOfPairs kvs)) := by
  unfold parse_ai_response_body
  unfold strict_json_object at h2
  rw [if_neg hs]
  cases hj : jsonLoads (cleanContent s) with
  | none => rw [hj] at h2; exact absurd h2 (by simp)
  | some v =>
    rw [hj] at h2
    cases v with
    | obj kvs2 =>
      simp only [Option.some.injEq] at h2
      subst h2
      rfl
    | null => exact absurd h2 (by simp)
    | boolv b => exact absurd h2 (by simp)
    | intv n => exact absurd h2 (by simp)
    | floatv q => exact absurd h2 (by simp)
    | str s2 => exact absurd h2 (by simp)
    | arr xs => exact absurd h2 (by simp)

theorem strict_of_empty : strict_json_object "" = none := rfl

theorem no_strict_of_body_error (s : String) (kvs : List (String × PyVal))
    (herr : parse_ai_response_body s = .error ())
    (h2 : strict_json_object s = some kvs) : False := by
  by_cases hs : s = ""
  · subst hs
    rw [strict_of_empty] at h2
    exact absurd h2 (by simp)
  · rw [body_ok_of_strict s kvs h2 hs] at herr
    exact absurd herr (by simp)

/-- C1: for every input string — empty, non-JSON, truncated or adversarial
— `parse_ai_response` returns a result dictionary and never raises: in the
exception-transparent embedding its result is always `Except.ok`, because
every exception of the `try` body is routed to `_extract_partial_json`,
whose own body is total on strings. -/
theorem parse_ai_response_never_raises (content : String) :
    (parse_ai_response content).isOk = true := by
  unfold parse_ai_response
  cases h : parse_ai_response_body content with
  | ok d => rfl
  | error e => rfl

/-- C10: `parse_ai_response` is a pure, deterministic function of its
input: the source reads no module state (its only effect is logging), so
its embedding is a Lean function and two calls on the same input are
definitionally the same result. -/
theorem parse_ai_response_deterministic (content : String) :
    parse_ai_response content = parse_ai_response content := rfl

/-- C7: a configuration whose lower-cased provider name is not one of the
seven registered providers is rejected with the unsupported-provider error
dictionary, no adapter is invoked and no network call is made (the outcome
is `errorDict`, not `httpPost`), whatever the decryption function,
configuration and payload. -/
theorem unsupported_provider_error (fernet : String → Option String)
    (cfg : ModelConfig) (payload : ClinicalPayload)
    (h : lowerStr (cfg.provider_name.getD "") ∉ providerRegistry) :
    generate_prescription_suggestions fernet cfg payload =
      .errorDict ("Unsupported provider: " ++
        lowerStr (cfg.provider_name.getD "")) := by
  simp only [providerRegistry, List.mem_cons, List.not_mem_nil, or_false,
    not_or] at h
  obtain ⟨h1, h2, h3, h4, h5, h6, h7⟩ := h
  unfold generate_prescription_suggestions
  rw [if_neg h1, if_neg h2, if_neg h3, if_neg h4, if_neg h5, if_neg h6,
    if_neg h7]

/-- Witness for C7 at the spec's example: provider name `unknown` yields
exactly the error dictionary `Unsupported provider: unknown`. -/
theorem unsupported_provider_error_witness :
    lowerStr ((some "unknown").getD "") ∉ providerRegistry ∧
    generate_prescription_suggestions (fun _ => none)
      (ModelConfig.mk (some "unknown") none (some "m") none none none)
      (ClinicalPayload.mk [] [] (.str "") (.str "")) =
      .errorDict "Unsupported provider: unknown" :=
  ⟨by decide,
   unsupported_provider_error (fun _ => none)
     (ModelConfig.mk (some "unknown") none (some "m") none none none)
     (ClinicalPayload.mk [] [] (.str "") (.str "")) (by decide)⟩

/-- Counterexample to C8 as stated: the empty key has length at most
eight, yet `mask_api_key` renders it as the empty string — zero mask
characters, not eight. -/
theorem mask_empty_key_not_masked :
    mask_api_key "" = "" ∧ ("" : String).length ≤ 8 ∧
    (mask_api_key "").length ≠ 8 := by
  refine ⟨rfl, by decide, by decide⟩

/-- C8 amended (the empty key is excluded, as the source returns it
unmasked): every nonempty key of length at most eight renders as exactly
eight mask characters, and every longer key renders as its first four
characters, `length - 8` mask characters and its last four characters,
preserving the total length. -/
theorem mask_api_key_shape (k : String) (h : k ≠ "") :
    (k.length ≤ 8 → mask_api_key k = String.mk (List.replicate 8 '•')) ∧
    (8 < k.length →
      mask_api_key k =
        String.mk (k.data.take 4) ++
        String.mk (List.replicate (k.length - 8) '•') ++
        String.mk (k.data.drop (k.length - 4)) ∧
      (mask_api_key k).length = k.length) := by
  constructor
  · intro hle
    unfold mask_api_key
    rw [if_neg h, if_pos hle]
  · intro hgt
    have hle : ¬ k.length ≤ 8 := by omega
    have hmask : mask_api_key k =
        String.mk (k.data.take 4) ++
        String.mk (List.replicate (k.length - 8) '•') ++
        String.mk (k.data.drop (k.length - 4)) := by
      unfold mask_api_key
      rw [if_neg h, if_neg hle]
    refine ⟨hmask, ?_⟩
    rw [hmask]
    simp only [String.length_append]
    show (k.data.take 4).length + (List.replicate (k.length - 8) '•').length +
      (k.data.drop (k.length - 4)).length = k.length
    rw [List.length_take, List.length_replicate, List.length_drop]
    have hdata : k.length = k.data.length := rfl
    omega

/-- Witness for C8 amended at a length-12 key: four literal, four mask,
four literal characters, total length preserved. -/
theorem mask_api_key_shape_witness :
    ("abcdefghijkl" : String) ≠ "" ∧
    ((("abcdefghijkl" : String).length ≤ 8 →
      mask_api_key "abcdefghijkl" = String.mk (List.replicate 8 '•')) ∧
     (8 < ("abcdefghijkl" : String).length →
      mask_api_key "abcdefghijkl" =
        String.mk (("abcdefghijkl" : String).data.take 4) ++
        String.mk (List.replicate (("abcdefghijkl" : String).length - 8) '•') ++
        String.mk (("abcdefghijkl" : String).data.drop
          (("abcdefghijkl" : String).length - 4)) ∧
      (mask_api_key "abcdefghijkl").length =
        ("abcdefghijkl" : String).length)) :=
  ⟨by decide, mask_api_key_shape "abcdefghijkl" (by decide)⟩

/-- C5, settled against the code (the claim describes the intended
behaviour): at the failing input the summaries are extracted as the first
quoted string after their key, but `treatment_plan` receives the
placeholder instead of `Step 1`/`Step 2`; and in general the `$(.*?)$`
capture of the treatment-plan pattern is provably always empty, so the
fallback never extracts a single treatment item from any input — one of
the two placeholder variants is always returned. -/
theorem treatment_plan_regex_never_extracts :
    parse_ai_response c5FailingInput = .ok
      [("summary_for_doctor", PyVal.str "S"),
       ("patient_friendly_summary", PyVal.str "P"),
       ("treatment_plan", PyVal.arr
         [PyVal.str "Treatment plan not available in truncated response"])] ∧
    (∀ content : String,
      dGet? (extract_partial_json_body content) "treatment_plan" =
        some (PyVal.arr
          [PyVal.str "Treatment plan not fully available in truncated response"]) ∨
      dGet? (extract_partial_json_body content) "treatment_plan" =
        some (PyVal.arr
          [PyVal.str "Treatment plan not available in truncated response"])) := by
  constructor
  · rfl
  · intro content
    unfold extract_partial_json_body
    cases h : treatmentGroupSearch content.data with
    | none =>
      right
      rw [dGet?_cons, dGet?_cons, dGet?_cons]
      simp only [if_neg (by decide : ¬("summary_for_doctor" : String) = "treatment_plan"),
        if_neg (by decide : ¬("patient_friendly_summary" : String) = "treatment_plan")]
      simp
    | some g =>
      left
      have hg := treatmentGroupSearch_empty _ _ h
      subst hg
      rw [dGet?_cons, dGet?_cons, dGet?_cons]
      simp only [if_neg (by decide : ¬("summary_for_doctor" : String) = "treatment_plan"),
        if_neg (by decide : ¬("patient_friendly_summary" : String) = "treatment_plan")]
      simp
      intro hne
      exact absurd (by decide : findallQuoted "" = []) hne

/-- Counterexample to C6 as stated: for the body
`<html><body>401 Unauthorized</body></html>` with status 401, the
Perplexity adapter does not return the authentication error dictionary —
the generic `<body[^>]*>(.*?)</body>` pattern fires first on the `html`
element, whose cleaned text `401 Unauthorized` is longer than ten
characters, so the unauthorized-substring probe is never reached. -/
theorem perplexity_401_not_auth_error :
    call_perplexity_html_check soupElements401 perplexity401Body 401 ≠
      some [("error", PyVal.str
        "Authentication Error: Invalid API key or unauthorized access")] := by
  intro h
  have h3 : call_perplexity_html_check soupElements401 perplexity401Body 401 =
      some [("error", PyVal.str "HTML Error: 401 Unauthorized")] := rfl
  rw [h3] at h
  injection h with h
  exact absurd (congrArg firstErrStr h) (by decide)

/-- C6 amended: that response yields
`\x7b'error': 'HTML Error: 401 Unauthorized'\x7d` — the cleaned text of
the matched element prefixed by `HTML Error: `. -/
theorem perplexity_401_html_error :
    call_perplexity_html_check soupElements401 perplexity401Body 401 =
      some [("error", PyVal.str "HTML Error: 401 Unauthorized")] := rfl

/-- Counterexample to C3 as stated: on the non-JSON input `hello` the
parser takes the partial-extraction path, and the returned dictionary
contains none of the five optional keys. -/
theorem parse_fallback_omits_optional_fields :
    (match parse_ai_response "hello" with
      | .ok d =>
        dContains d "medication_suggestions" ||
        dContains d "lifestyle_recommendations" ||
        dContains d "followup_interval" ||
        dContains d "red_flag_warnings" ||
        dContains d "disclaimer"
      | .error _ => true) = false := by decide

/-- C3 amended: the five optional keys are always present with their
documented safe defaults on the strict-JSON path (the partial-extraction
path returns only the three required keys; only the unreachable
catastrophic branch of the fallback would supply all eight). -/
theorem parse_strict_path_optional_defaults (s : String) (d : PyDict)
    (kvs : List (String × PyVal)) (h1 : parse_ai_response s = .ok d)
    (h2 : strict_json_object s = some kvs) :
    (dContains d "medication_suggestions" = true ∧
     dContains d "lifestyle_recommendations" = true ∧
     dContains d "followup_interval" = true ∧
     dContains d "red_flag_warnings" = true ∧
     dContains d "disclaimer" = true) ∧
    ((dContains (dictOfPairs kvs) "medication_suggestions" = false →
       dGet? d "medication_suggestions" = some (.arr [])) ∧
     (dContains (dictOfPairs kvs) "lifestyle_recommendations" = false →
       dGet? d "lifestyle_recommendations" = some (.arr [])) ∧
     (dContains (dictOfPairs kvs) "followup_interval" = false →
       dGet? d "followup_interval" =
         some (.str "Refer to ophthalmologist")) ∧
     (dContains (dictOfPairs kvs) "red_flag_warnings" = false →
       dGet? d "red_flag_warnings" = some (.arr [])) ∧
     (dContains (dictOfPairs kvs) "disclaimer" = false →
       dGet? d "disclaimer" =
         some (.str "AI-generated. Consult a professional."))) := by
  rcases parse_ok_cases s d h1 with ⟨kvs2, hs, hso, hd⟩ | ⟨herr, hd⟩
  · rw [h2] at hso
    injection hso with hso
    subst hso
    subst hd
    obtain ⟨_, _, _, c4, c5, c6, c7, c8⟩ := apply_defaults_contains_all
      (dictOfPairs kvs)
    obtain ⟨o1, o2, o3, o4, o5⟩ := apply_defaults_optional_absent
      (dictOfPairs kvs)
    exact ⟨⟨c4, c5, c6, c7, c8⟩, o1, o2, o3, o4, o5⟩
  · exact absurd h2 (fun h2 => no_strict_of_body_error s kvs herr h2)

/-- Witness for C3 amended at the input `\x7b\x7d`: the strict path is
taken and all five optional keys carry their documented defaults. -/
theorem parse_strict_path_optional_defaults_witness :
    parse_ai_response "\x7b\x7d" = .ok emptyObjectResult ∧
    strict_json_object "\x7b\x7d" = some [] ∧
    ((dContains emptyObjectResult "medication_suggestions" = true ∧
      dContains emptyObjectResult "lifestyle_recommendations" = true ∧
      dContains emptyObjectResult "followup_interval" = true ∧
      dContains emptyObjectResult "red_flag_warnings" = true ∧
      dContains emptyObjectResult "disclaimer" = true) ∧
     ((dContains (dictOfPairs []) "medication_suggestions" = false →
        dGet? emptyObjectResult "medication_suggestions" = some (.arr [])) ∧
      (dContains (dictOfPairs []) "lifestyle_recommendations" = false →
        dGet? emptyObjectResult "lifestyle_recommendations" = some (.arr [])) ∧
      (dContains (dictOfPairs []) "followup_interval" = false →
        dGet? emptyObjectResult "followup_interval" =
          some (.str "Refer to ophthalmologist")) ∧
      (dContains (dictOfPairs []) "red_flag_warnings" = false →
        dGet? emptyObjectResult "red_flag_warnings" = some (.arr [])) ∧
      (dContains (dictOfPairs []) "disclaimer" = false →
        dGet? emptyObjectResult "disclaimer" =
          some (.str "AI-generated. Consult a professional.")))) :=
  ⟨rfl, rfl,
   parse_strict_path_optional_defaults "\x7b\x7d" emptyObjectResult [] rfl rfl⟩

/-- Counterexample to the field-naming clause of C2 as stated: on the
partial-extraction path the placeholder substituted for
`summary_for_doctor` is the fixed string
`Partial summary extracted from truncated response`, which does not name
(contain) the missing field. -/
theorem parse_fallback_placeholder_not_field_naming :
    (match parse_ai_response "hello" with
      | .ok d =>
        match dGet? d "summary_for_doctor" with
        | some (.str v) => containsSubstr v "summary_for_doctor"
        | _ => true
      | .error _ => true) = false := by decide

/-- C2 amended: the three required keys are present in the result for
every input, on both paths; on the strict-JSON path an absent required
field receives the placeholder naming it
(`Information for <field> was not generated.`); on the partial-extraction
path a non-extractable summary field receives its fixed per-field
placeholder, which describes the truncation without naming the field. -/
theorem parse_required_fields_always_present (s : String) (d : PyDict)
    (h : parse_ai_response s = .ok d) :
    (dContains d "summary_for_doctor" = true ∧
     dContains d "patient_friendly_summary" = true ∧
     dContains d "treatment_plan" = true) ∧
    (∀ kvs, strict_json_object s = some kvs →
      (dContains (dictOfPairs kvs) "summary_for_doctor" = false →
        dGet? d "summary_for_doctor" =
          some (.str (requiredPlaceholder "summary_for_doctor"))) ∧
      (dContains (dictOfPairs kvs) "patient_friendly_summary" = false →
        dGet? d "patient_friendly_summary" =
          some (.str (requiredPlaceholder "patient_friendly_summary"))) ∧
      (dContains (dictOfPairs kvs) "treatment_plan" = false →
        dGet? d "treatment_plan" =
          some (.str (requiredPlaceholder "treatment_plan")))) ∧
    (parse_ai_response_body s = .error () →
      (searchKeyQuoted "summary_for_doctor" s = none →
        dGet? d "summary_for_doctor" =
          some (.str "Partial summary extracted from truncated response")) ∧
      (searchKeyQuoted "patient_friendly_summary" s = none →
        dGet? d "patient_friendly_summary" =
          some (.str "Patient-friendly summary not available in truncated response"))) := by
  rcases parse_ok_cases s d h with ⟨kvs, hs, hso, hd⟩ | ⟨herr, hd⟩
  · subst hd
    obtain ⟨c1, c2, c3, _⟩ := apply_defaults_contains_all (dictOfPairs kvs)
    refine ⟨⟨c1, c2, c3⟩, ?_, ?_⟩
    · intro kvs2 h2
      rw [hso] at h2
      injection h2 with h2
      subst h2
      exact apply_defaults_required_absent (dictOfPairs kvs)
    · intro herr
      exact absurd (body_ok_of_strict s kvs hso hs)
        (fun hok => by rw [hok] at herr; exact absurd herr (by simp))
  · subst hd
    obtain ⟨e1, e2, e3⟩ := extract_body_contains s
    refine ⟨⟨e1, e2, e3⟩, ?_, ?_⟩
    · intro kvs h2
      exact absurd h2 (fun h2 => no_strict_of_body_error s kvs herr h2)
    · intro _
      exact ⟨fun hm => extract_body_summary_miss s hm,
        fun hm => extract_body_patient_miss s hm⟩

/-- Witness for C2 amended at the input `\x7b\x7d`: both required-key
presence and the strict-path field-naming placeholders are exhibited. -/
theorem parse_required_fields_always_present_witness :
    parse_ai_response "\x7b\x7d" = .ok emptyObjectResult ∧
    (dContains emptyObjectResult "summary_for_doctor" = true ∧
     dContains emptyObjectResult "patient_friendly_summary" = true ∧
     dContains emptyObjectResult "treatment_plan" = true) ∧
    dGet? emptyObjectResult "summary_for_doctor" =
      some (.str (requiredPlaceholder "summary_for_doctor")) :=
  ⟨rfl,
   (parse_required_fields_always_present "\x7b\x7d" emptyObjectResult rfl).1,
   ((parse_required_fields_always_present "\x7b\x7d" emptyObjectResult
       rfl).2.1 [] rfl).1 rfl⟩

/-- Counterexample to C4 as stated: with the decrypted key empty, the
Custom adapter does not return the `API key not configured` error — it
proceeds to its network call. -/
theorem custom_provider_skips_key_check :
    decrypt_api_key (fun _ => none) (c4CustomCfg.api_key_encrypted.getD "") =
      "" ∧
    (call_custom_provider (fun _ => none) c4CustomCfg c4Payload).isPost =
      true ∧
    (call_custom_provider (fun _ => none) c4CustomCfg
      c4Payload).isErrorDict = false :=
  ⟨rfl, rfl, rfl⟩

/-- C4 amended: with a missing or empty decrypted key, each of the six
named adapters (OpenAI, Gemini, Perplexity, Grok, DeepSeek, GLM) returns
`\x7b'error': 'API key not configured'\x7d` immediately, before any
network call; the Custom adapter performs no such check — it never
returns that error and, when it reaches its network call, sends only the
`Content-Type` header, omitting `Authorization`. -/
theorem adapters_empty_key_behaviour (fernet : String → Option String)
    (cfg : ModelConfig) (payload : ClinicalPayload)
    (h : decrypt_api_key fernet (cfg.api_key_encrypted.getD "") = "") :
    call_openai fernet cfg payload = .errorDict "API key not configured" ∧
    call_gemini fernet cfg payload = .errorDict "API key not configured" ∧
    call_perplexity fernet cfg payload =
      .errorDict "API key not configured" ∧
    call_grok fernet cfg payload = .errorDict "API key not configured" ∧
    call_deepseek fernet cfg payload = .errorDict "API key not configured" ∧
    call_glm fernet cfg payload = .errorDict "API key not configured" ∧
    (call_custom_provider fernet cfg payload).isErrorDict = false ∧
    (∀ hd, (call_custom_provider fernet cfg payload).headers? = some hd →
      hd = [("Content-Type", "application/json")]) := by
  refine ⟨?_, ?_, ?_, ?_, ?_, ?_, ?_, ?_⟩
  · unfold call_openai
    rw [h]
    rfl
  · unfold call_gemini
    rw [h]
    rfl
  · unfold call_perplexity
    rw [h]
    rfl
  · unfold call_grok
    rw [h]
    rfl
  · unfold call_deepseek
    rw [h]
    rfl
  · unfold call_glm
    rw [h]
    rfl
  · unfold call_custom_provider
    rw [h]
    cases build_user_prompt payload with
    | none => rfl
    | some up =>
      cases cfg.model_name with
      | none => rfl
      | some mn =>
        cases cfg.base_url with
        | none => rfl
        | some b => rfl
  · intro hd
    unfold call_custom_provider
    rw [h]
    cases build_user_prompt payload with
    | none => intro hh; exact absurd hh (by simp [AdapterStep.headers?])
    | some up =>
      cases cfg.model_name with
      | none => intro hh; exact absurd hh (by simp [AdapterStep.headers?])
      | some mn =>
        cases cfg.base_url with
        | none => intro hh; exact absurd hh (by simp [AdapterStep.headers?])
        | some b =>
          intro hh
          simp only [AdapterStep.headers?, Option.some.injEq] at hh
          rw [← hh]
          simp

/-- Witness for C4 amended at a concrete empty-key configuration. -/
theorem adapters_empty_key_behaviour_witness :
    decrypt_api_key (fun _ => none) (c4CustomCfg.api_key_encrypted.getD "") =
      "" ∧
    (call_openai (fun _ => none) c4CustomCfg c4Payload =
       .errorDict "API key not configured" ∧
     call_gemini (fun _ => none) c4CustomCfg c4Payload =
       .errorDict "API key not configured" ∧
     call_perplexity (fun _ => none) c4CustomCfg c4Payload =
       .errorDict "API key not configured" ∧
     call_grok (fun _ => none) c4CustomCfg c4Payload =
       .errorDict "API key not configured" ∧
     call_deepseek (fun _ => none) c4CustomCfg c4Payload =
       .errorDict "API key not configured" ∧
     call_glm (fun _ => none) c4CustomCfg c4Payload =
       .errorDict "API key not configured" ∧
     (call_custom_provider (fun _ => none) c4CustomCfg
       c4Payload).isErrorDict = false ∧
     (∀ hd, (call_custom_provider (fun _ => none) c4CustomCfg
         c4Payload).headers? = some hd →
       hd = [("Content-Type", "application/json")])) :=
  ⟨rfl, adapters_empty_key_behaviour (fun _ => none) c4CustomCfg c4Payload rfl⟩

/-- C9: `build_user_prompt` renders every element of the results sequence
(each carrying a `class_name`, as classification results do, and a
formattable confidence), in input order, as the line
`- Image i: <class_name> (Confidence: <percent>%)` with a one-based index
and one-decimal confidence: the prompt decomposes around the
concatenation of exactly those lines in order. -/
theorem user_prompt_enumerates_results (p : ClinicalPayload)
    (hf : (getStrStripped p.patient_info "first_name").isSome = true)
    (hl : (getStrStripped p.patient_info "last_name").isSome = true)
    (h1 : ∀ r ∈ p.results, dContains r "class_name" = true)
    (h2 : ∀ r ∈ p.results,
      (format1f (dGetD r "confidence_percent" (PyVal.intv 0))).isSome = true) :
    ∃ pre post, build_user_prompt p =
      some (pre ++ concatAll ((idxFrom 0 p.results).map (fun pr =>
        "- Image " ++ toString (pr.1 + 1) ++ ": " ++
        pyStr (dGetD pr.2 "class_name" PyVal.null) ++
        " (Confidence: " ++
        (format1f (dGetD pr.2 "confidence_percent" (PyVal.intv 0))).getD "" ++
        "%)\n")) ++ post) := by
  obtain ⟨fn, hfn⟩ := Option.isSome_iff_exists.mp hf
  obtain ⟨ln, hln⟩ := Option.isSome_iff_exists.mp hl
  unfold build_user_prompt
  rw [hfn, hln]
  dsimp only
  rw [resultsSection_eq p.results 0 h1 h2]
  exact ⟨_, _, rfl⟩

/-- Witness for C9 at the spec's example: the single enumerated line is
exactly `- Image 1: Mild (Confidence: 82.3%)` and the generated prompt
contains it. -/
theorem user_prompt_enumerates_results_witness :
    (getStrStripped c9Payload.patient_info "first_name").isSome = true ∧
    (getStrStripped c9Payload.patient_info "last_name").isSome = true ∧
    (∀ r ∈ c9Payload.results, dContains r "class_name" = true) ∧
    (∀ r ∈ c9Payload.results,
      (format1f (dGetD r "confidence_percent" (PyVal.intv 0))).isSome =
        true) ∧
    concatAll ((idxFrom 0 c9Payload.results).map (fun pr =>
      "- Image " ++ toString (pr.1 + 1) ++ ": " ++
      pyStr (dGetD pr.2 "class_name" PyVal.null) ++
      " (Confidence: " ++
      (format1f (dGetD pr.2 "confidence_percent" (PyVal.intv 0))).getD "" ++
      "%)\n")) = "- Image 1: Mild (Confidence: 82.3%)\n" ∧
    (∃ pre post, build_user_prompt c9Payload =
      some (pre ++ "- Image 1: Mild (Confidence: 82.3%)\n" ++ post)) :=
  ⟨by decide, by decide, by decide, by decide, by decide,
   user_prompt_enumerates_results c9Payload (by decide) (by decide)
     (by decide) (by decide)⟩
